import Mathlib

/-!
# Weather service over UDP: wire codec, request validation, generator, exchange

A shallow embedding of `client-project/src/main.c`, `server-project/src/main.c`
and `protocol.h`.

Conventions of the embedding.

* A `char` / `uint8_t` is the value of its byte, a `Nat` below 256.
* An `unsigned int` / `uint32_t` is a `Nat` below `2 ^ 32`.
* A `float` is carried as its IEEE-754 bit pattern, a `Nat` below `2 ^ 32`
  (the codec only moves the bits with `memcpy`).  Where the server computes
  with floats, a value is the rational number it denotes and every conversion
  and operation is the exact one followed by the rounding of a `FloatModel`.
* A region of memory is a `List Nat` of bytes.  A C string is read from such a
  list up to its first zero byte; reading past the end of the list yields the
  terminator.
* A pointer that the source tests against `NULL` is an `Option`.
* What a function prints on `stderr` is returned as a list of messages.
-/

namespace Weather

/-! ## protocol.h -/

def STATUS_SUCCESS : Nat := 0
def STATUS_CITY_NOT_FOUND : Nat := 1
def STATUS_INVALID_REQUEST : Nat := 2

/-- The character `t` (0x74). -/
def TYPE_TEMPERATURE : Nat := 116
/-- The character `h` (0x68). -/
def TYPE_HUMIDITY : Nat := 104
/-- The character `w` (0x77). -/
def TYPE_WIND : Nat := 119
/-- The character `p` (0x70). -/
def TYPE_PRESSURE : Nat := 112

/-- The struct `weather_request_t`: `char type; char city[64];`. -/
structure weather_request_t where
  type : Nat
  city : List Nat
  deriving DecidableEq, Repr

/-- The struct `weather_response_t`: `unsigned int status; char type; float value;`
(`value` is the bit pattern of the float). -/
structure weather_response_t where
  status : Nat
  type : Nat
  value : Nat
  deriving DecidableEq, Repr

/-- The macro `REQUEST_SIZE`, `sizeof(char) + 64`. -/
def REQUEST_SIZE : Nat := 1 + 64

/-- The macro `RESPONSE_SIZE`, `sizeof(uint32_t) + sizeof(char) + sizeof(float)`. -/
def RESPONSE_SIZE : Nat := 4 + 1 + 4

/-! ## Memory and the C library -/

/-- Byte order of a host. -/
inductive ByteOrder where
  | little
  | big
  deriving DecidableEq, Repr

/-- The four bytes of a 32-bit value, most significant first. -/
def be_bytes (x : Nat) : List Nat :=
  [x / 16777216 % 256, x / 65536 % 256, x / 256 % 256, x % 256]

/-- The object representation of a `uint32_t` on a host: the bytes `memcpy` reads
from the address of a 32-bit variable holding `x`. -/
def store32 (host : ByteOrder) (x : Nat) : List Nat :=
  match host with
  | .big => be_bytes x
  | .little => (be_bytes x).reverse

/-- The value of the `uint32_t` whose object representation is the first four
bytes of `bytes`: what a 32-bit variable holds after `memcpy(&v, bytes, 4)`. -/
def load32 (host : ByteOrder) (bytes : List Nat) : Nat :=
  let b (i : Nat) : Nat := bytes.getD i 0 % 256
  match host with
  | .big => b 0 * 16777216 + b 1 * 65536 + b 2 * 256 + b 3
  | .little => b 3 * 16777216 + b 2 * 65536 + b 1 * 256 + b 0

/-- Reversal of the four bytes of a 32-bit value. -/
def bswap32 (x : Nat) : Nat :=
  x % 256 * 16777216 + x / 256 % 256 * 65536 + x / 65536 % 256 * 256 + x / 16777216 % 256

/-- The library function `htonl`: identity on a big-endian host, byte swap on a
little-endian one. -/
def htonl (host : ByteOrder) (x : Nat) : Nat :=
  match host with
  | .big => x % 4294967296
  | .little => bswap32 x

/-- The library function `ntohl`. -/
def ntohl (host : ByteOrder) (x : Nat) : Nat :=
  match host with
  | .big => x % 4294967296
  | .little => bswap32 x

/-- The call `memcpy(dst + off, src, n)`: bytes `off .. off + n - 1` of `dst` are
replaced by the first `n` bytes of `src`. -/
def memcpy (dst : List Nat) (off : Nat) (src : List Nat) (n : Nat) : List Nat :=
  dst.take off ++ src.take n ++ dst.drop (off + n)

/-- The read `*p` of a character pointer; past the end of the list it reads the
terminator. -/
def deref (p : List Nat) : Nat := p.headD 0

/-- The library function `strlen`. -/
def strlen : List Nat → Nat
  | [] => 0
  | c :: rest => if c = 0 then 0 else strlen rest + 1

/-- The library function `strchr`: the offset of the first occurrence of `c` in
the string, `none` for a null result. -/
def strchr : List Nat → Nat → Option Nat
  | [], c => if c = 0 then some 0 else none
  | x :: rest, c =>
    if x = c then some 0
    else if x = 0 then none
    else (strchr rest c).map (· + 1)

/-- The library function `strncpy(dst, src, n)`: copies the string `src`, stops
after `n` bytes, and fills with zero bytes up to `n` when `src` is shorter. -/
def strncpy : List Nat → List Nat → Nat → List Nat
  | dst, _, 0 => dst
  | [], _, _ + 1 => []
  | _ :: dst, [], n + 1 => 0 :: strncpy dst [] n
  | _ :: dst, c :: src, n + 1 =>
    if c = 0 then 0 :: strncpy dst [] n else c :: strncpy dst src n

/-- The library function `isalpha` in the "C" locale (the programs never call
`setlocale`), on an `unsigned char` value. -/
def isalpha (c : Nat) : Bool :=
  (65 ≤ c && c ≤ 90) || (97 ≤ c && c ≤ 122)

/-- The library function `tolower` in the "C" locale, on an `unsigned char` value. -/
def tolower (c : Nat) : Nat :=
  if 65 ≤ c ∧ c ≤ 90 then c + 32 else c

/-! ## Codec -/

/-- The function `serialize_response` of the server, run on a host of byte order
`host`: the return value and the buffer after the call. -/
def serialize_response (host : ByteOrder) (response : Option weather_response_t)
    (buffer : Option (List Nat)) : Int × Option (List Nat) :=
  match response, buffer with
  | some response, some buffer =>
    let offset : Nat := 0
    let net_status := htonl host response.status
    let buffer := memcpy buffer offset (store32 host net_status) 4
    let offset := offset + 4
    let buffer := buffer.set offset (response.type % 256)
    let offset := offset + 1
    let bits := load32 host (store32 host response.value)
    let net_bits := htonl host bits
    let buffer := memcpy buffer offset (store32 host net_bits) 4
    let offset := offset + 4
    ((offset : Nat), some buffer)
  | _, _ => (-1, buffer)

/-- The function `deserialize_response` of the client, run on a host of byte order
`host`: the return value and the response after the call. -/
def deserialize_response (host : ByteOrder) (buffer : Option (List Nat))
    (response : Option weather_response_t) : Int × Option weather_response_t :=
  match buffer, response with
  | some buffer, some response =>
    let offset : Nat := 0
    let net_status := load32 host (buffer.drop offset)
    let response := { response with status := ntohl host net_status }
    let offset := offset + 4
    let response := { response with type := buffer.getD offset 0 % 256 }
    let offset := offset + 1
    let net_bits := load32 host (buffer.drop offset)
    let host_bits := ntohl host net_bits
    let response := { response with value := load32 host (store32 host host_bits) }
    (0, some response)
  | _, _ => (-1, response)

/-- The function `serialize_request` of the client. -/
def serialize_request (request : Option weather_request_t) (buffer : Option (List Nat)) :
    Int × Option (List Nat) :=
  match request, buffer with
  | some request, some buffer =>
    let offset : Nat := 0
    let buffer := buffer.set offset (request.type % 256)
    let offset := offset + 1
    let buffer := memcpy buffer offset request.city 64
    let offset := offset + 64
    ((offset : Nat), some buffer)
  | _, _ => (-1, buffer)

/-- The function `deserialize_request` of the server. -/
def deserialize_request (buffer : Option (List Nat)) (request : Option weather_request_t) :
    Int × Option weather_request_t :=
  match buffer, request with
  | some buffer, some request =>
    let offset : Nat := 0
    let request := { request with type := buffer.getD offset 0 % 256 }
    let offset := offset + 1
    let request := { request with city := memcpy request.city 0 (buffer.drop offset) 64 }
    let request := { request with city := request.city.set 63 0 }
    (0, some request)
  | _, _ => (-1, request)

/-! ## Syntactic stage (client) -/

/-- The loop `while (*cursor == ' ') cursor++;`. -/
def skip_spaces : List Nat → List Nat
  | [] => []
  | c :: rest => if c = 32 then skip_spaces rest else c :: rest

def MSG_TAB : String :=
  "Errore: la richiesta non può contenere caratteri di tabulazione.\n"
def MSG_FORMAT : String :=
  "Errore: formato richiesta invalido. Usa: \"type città\"\n"
def MSG_SINGLE_CHAR : String :=
  "Errore: il tipo deve essere un singolo carattere ('t', 'h', 'w', 'p').\n"
def MSG_MISSING_CITY : String :=
  "Errore: nome città mancante.\n"
def MSG_CITY_TOO_LONG : String :=
  "Errore: nome città troppo lungo (massimo 63 caratteri).\n"

/-- The function `parse_weather_request` of the client: the return value, the
request after the call, and what was printed on `stderr`. -/
def parse_weather_request (input : Option (List Nat)) (request : Option weather_request_t) :
    Int × Option weather_request_t × List String :=
  match input, request with
  | some input, some request =>
    if strlen input < 3 then (0, some request, [])
    else if (strchr input 9).isSome then (0, some request, [MSG_TAB])
    else
      let request := { request with type := deref input }
      match strchr input 32 with
      | none => (0, some request, [MSG_FORMAT])
      | some first_space =>
        let first_token_len := first_space
        if first_token_len ≠ 1 then (0, some request, [MSG_SINGLE_CHAR])
        else
          let cursor := skip_spaces (input.drop 1)
          if deref cursor = 0 then (0, some request, [MSG_MISSING_CITY])
          else
            let city_len := strlen cursor
            if city_len ≥ 64 then (0, some request, [MSG_CITY_TOO_LONG])
            else
              let request := { request with city := strncpy request.city cursor (64 - 1) }
              let request := { request with city := request.city.set (64 - 1) 0 }
              (1, some request, [])
  | _, _ => (0, request, [])

/-! ## Semantic stage (server) -/

/-- The function `compare_case_insensitive` of the server. -/
def compare_case_insensitive : List Nat → List Nat → Int
  | c1 :: str1, c2 :: str2 =>
    if c1 ≠ 0 ∧ c2 ≠ 0 then
      if tolower (c1 % 256) ≠ tolower (c2 % 256) then 0
      else compare_case_insensitive str1 str2
    else if c1 = 0 ∧ c2 = 0 then 1 else 0
  | [], str2 => if deref str2 = 0 then 1 else 0
  | c1 :: _, [] => if c1 = 0 then 1 else 0

/-- The array `supported_cities` of `check_city_availability`: Bari, Roma, Milano,
Napoli, Torino, Palermo, Genova, Bologna, Firenze, Venezia. -/
def supported_cities : List (List Nat) :=
  [ [66, 97, 114, 105],
    [82, 111, 109, 97],
    [77, 105, 108, 97, 110, 111],
    [78, 97, 112, 111, 108, 105],
    [84, 111, 114, 105, 110, 111],
    [80, 97, 108, 101, 114, 109, 111],
    [71, 101, 110, 111, 118, 97],
    [66, 111, 108, 111, 103, 110, 97],
    [70, 105, 114, 101, 110, 122, 101],
    [86, 101, 110, 101, 122, 105, 97] ]

/-- The loop of `check_city_availability` over the entries of the array. -/
def check_city_loop (city_name : List Nat) : List (List Nat) → Int
  | [] => 0
  | entry :: rest =>
    if compare_case_insensitive city_name entry ≠ 0 then 1
    else check_city_loop city_name rest

/-- The function `check_city_availability` of the server. -/
def check_city_availability (city_name : List Nat) : Int :=
  check_city_loop city_name supported_cities

/-- The loop `while (*city_ptr)` of `validate_request_server`: `true` when it
leaves the function with `STATUS_INVALID_REQUEST`. -/
def city_scan_rejects : List Nat → Bool
  | [] => false
  | c :: rest =>
    if c = 0 then false
    else if c = 9 then true
    else if !isalpha (c % 256) && c ≠ 32 && c ≠ 39 && c ≠ 45 then true
    else city_scan_rejects rest

/-- The function `validate_request_server` of the server. -/
def validate_request_server (request : Option weather_request_t) : Nat :=
  match request with
  | none => STATUS_INVALID_REQUEST
  | some request =>
    if request.type ≠ TYPE_TEMPERATURE ∧ request.type ≠ TYPE_HUMIDITY ∧
        request.type ≠ TYPE_WIND ∧ request.type ≠ TYPE_PRESSURE then
      STATUS_INVALID_REQUEST
    else if city_scan_rejects request.city then STATUS_INVALID_REQUEST
    else if check_city_availability request.city = 0 then STATUS_CITY_NOT_FOUND
    else STATUS_SUCCESS

/-! ## Reply handling (client) -/

/-- The struct `sockaddr_in`, its port and its IPv4 address. -/
structure sockaddr_in where
  sin_port : Nat
  sin_addr : Nat
  deriving DecidableEq, Repr

/-- What `print_result` and `main` write on `stdout`, one item per `printf`; a
measurement carries the bits of the float it formats. -/
inductive Printed where
  | result_header (city_display : List Nat)
  | temperature (value : Nat)
  | humidity (value : Nat)
  | wind (value : Nat)
  | pressure (value : Nat)
  | city_not_available
  | invalid_request
  | client_terminated
  deriving DecidableEq, Repr

/-- The function `print_result` of the client (the host names it prints are left
out). -/
def print_result (response : weather_response_t) (request : weather_request_t) :
    List Printed :=
  let city_display := strncpy (List.replicate 64 0) request.city 64
  let city_display :=
    if deref city_display ≥ 97 ∧ deref city_display ≤ 122 then
      city_display.set 0 (deref city_display - 97 + 65)
    else city_display
  if response.status = STATUS_SUCCESS then
    Printed.result_header (city_display.takeWhile (· ≠ 0)) ::
      (if response.type = TYPE_TEMPERATURE then [Printed.temperature response.value]
       else if response.type = TYPE_HUMIDITY then [Printed.humidity response.value]
       else if response.type = TYPE_WIND then [Printed.wind response.value]
       else if response.type = TYPE_PRESSURE then [Printed.pressure response.value]
       else [])
  else if response.status = STATUS_CITY_NOT_FOUND then [Printed.city_not_available]
  else if response.status = STATUS_INVALID_REQUEST then [Printed.invalid_request]
  else []

/-- The call `recvfrom(socket, buffer, len, ...)` on a datagram socket that
delivers `datagram`: the first `len` bytes at most are stored in the buffer and
their number is returned. -/
def recvfrom (buffer : List Nat) (len : Nat) (datagram : List Nat) : Int × List Nat :=
  let n := min datagram.length len
  ((n : Nat), memcpy buffer 0 datagram n)

/-- The outcome of the client's reply handling. -/
structure ClientOutcome where
  exit_code : Int
  stderr : List String
  decoded : Option weather_response_t
  stdout : List Printed
  deriving DecidableEq, Repr

def MSG_RECVFROM : String := "Errore: recvfrom() fallita.\n"
def MSG_UNKNOWN_SOURCE : String := "Errore: ricevuto pacchetto da sorgente sconosciuta.\n"
def MSG_DESERIALIZE : String := "Errore: deserializzazione fallita.\n"

/-- The end of the client's `main`, from the `recvfrom` call on.  `incoming` is
the datagram the socket delivers with its source address, `none` when the call
fails; `recv_buffer` is the buffer before the call and `response` the
uninitialised local; `decoded` records the response `deserialize_response`
produced, when it was called. -/
def client_receive (host : ByteOrder) (request : weather_request_t)
    (server_addr : sockaddr_in) (recv_buffer : List Nat) (response : weather_response_t)
    (incoming : Option (List Nat × sockaddr_in)) : ClientOutcome :=
  match incoming with
  | none => ⟨1, [MSG_RECVFROM], none, []⟩
  | some (datagram, from_addr) =>
    let (bytes_received, recv_buffer) := recvfrom recv_buffer RESPONSE_SIZE datagram
    if bytes_received ≤ 0 then ⟨1, [MSG_RECVFROM], none, []⟩
    else if from_addr.sin_addr ≠ server_addr.sin_addr then
      ⟨1, [MSG_UNKNOWN_SOURCE], none, []⟩
    else
      match deserialize_response host (some recv_buffer) (some response) with
      | (0, some response) =>
        ⟨0, [], some response, print_result response request ++ [Printed.client_terminated]⟩
      | _ => ⟨1, [MSG_DESERIALIZE], none, []⟩

/-! ## Measurement generator (server) -/

/-- The floating-point environment of the server.  A `float` value is the
rational number it denotes; `rnd` is the rounding the hardware applies to the
exact result of a conversion or an operation, `bits` gives the IEEE-754 bit
pattern of a value (what `memcpy` reads from a `float`), and `RAND_MAX` is the
constant of `stdlib.h`. -/
structure FloatModel where
  rnd : ℚ → ℚ
  bits : ℚ → Nat
  RAND_MAX : Nat

/-- The function `generate_random_float` of the server; `sample` is what the call
`rand()` returns. -/
def generate_random_float (fm : FloatModel) (sample : Nat) (min_val max_val : ℚ) : ℚ :=
  let random_fraction := fm.rnd (fm.rnd (sample : ℚ) / fm.rnd (fm.RAND_MAX : ℚ))
  fm.rnd (min_val + fm.rnd (random_fraction * fm.rnd (max_val - min_val)))

/-- The function `get_temperature` of the server. -/
def get_temperature (fm : FloatModel) (sample : Nat) : ℚ :=
  generate_random_float fm sample (-10) 40

/-- The function `get_humidity` of the server. -/
def get_humidity (fm : FloatModel) (sample : Nat) : ℚ :=
  generate_random_float fm sample 20 100

/-- The function `get_wind` of the server. -/
def get_wind (fm : FloatModel) (sample : Nat) : ℚ :=
  generate_random_float fm sample 0 100

/-- The function `get_pressure` of the server. -/
def get_pressure (fm : FloatModel) (sample : Nat) : ℚ :=
  generate_random_float fm sample 950 1050

/-- A small floating-point environment to instantiate the statements with: values
are rounded down to the multiples of 1/8 and encoded as 32-bit two's-complement
counts of eighths; `RAND_MAX` is 32767. -/
def eighths_model : FloatModel where
  rnd := fun q => ((⌊q * 8⌋ : ℤ) : ℚ) / 8
  bits := fun q => (⌊q * 8⌋ % 4294967296).toNat
  RAND_MAX := 32767

/-! ## Responder loop (server) -/

/-- What one turn of the server's loop writes on `stderr`. -/
inductive ServerError where
  | recvfrom_failed
  | wrong_size (bytes_received : Int) (expected : Int)
  | deserialize_failed
  | serialize_failed
  deriving DecidableEq, Repr

/-- The outcome of one turn of the server's loop: what it wrote on `stderr` and
the datagram it passed to `sendto` with its destination (`sendto` is taken to
succeed), `none` when the turn ends in `continue` before sending.  The loop goes on to the next `recvfrom`
after every turn. -/
structure ServerOutcome where
  stderr : List ServerError
  sent : Option (List Nat × sockaddr_in)
  deriving DecidableEq, Repr

/-- The switch of the server's `main` on the validation status that fills the
response, a response zeroed by `memset` before. -/
def build_response (fm : FloatModel) (sample : Nat) (validation_status : Nat)
    (request : weather_request_t) : weather_response_t :=
  let response : weather_response_t := ⟨0, 0, 0⟩
  if validation_status = STATUS_SUCCESS then
    let response := { response with status := STATUS_SUCCESS }
    let response := { response with type := request.type }
    if request.type = TYPE_TEMPERATURE then
      { response with value := fm.bits (get_temperature fm sample) }
    else if request.type = TYPE_HUMIDITY then
      { response with value := fm.bits (get_humidity fm sample) }
    else if request.type = TYPE_WIND then
      { response with value := fm.bits (get_wind fm sample) }
    else if request.type = TYPE_PRESSURE then
      { response with value := fm.bits (get_pressure fm sample) }
    else { response with value := 0 }
  else if validation_status = STATUS_CITY_NOT_FOUND then
    { status := STATUS_CITY_NOT_FOUND, type := request.type, value := 0 }
  else if validation_status = STATUS_INVALID_REQUEST then
    { status := STATUS_INVALID_REQUEST, type := request.type, value := 0 }
  else
    { status := STATUS_INVALID_REQUEST, type := 0, value := 0 }

/-- One turn of the `while (1)` loop of the server's `main`.  `incoming` is the
datagram the socket delivers with its source address, `none` when `recvfrom`
fails; `recv_buffer`, `request` and `send_buffer` are the uninitialised locals
and `sample` is what `rand()` returns in this turn.  The reverse lookup of the
client's name and the log line on `stdout` are left out. -/
def server_step (host : ByteOrder) (fm : FloatModel) (sample : Nat)
    (recv_buffer : List Nat) (request : weather_request_t) (send_buffer : List Nat)
    (incoming : Option (List Nat × sockaddr_in)) : ServerOutcome :=
  match incoming with
  | none => ⟨[ServerError.recvfrom_failed], none⟩
  | some (datagram, client_addr) =>
    let (bytes_received, recv_buffer) := recvfrom recv_buffer REQUEST_SIZE datagram
    if bytes_received < 0 then ⟨[ServerError.recvfrom_failed], none⟩
    else if bytes_received ≠ (REQUEST_SIZE : Int) then
      ⟨[ServerError.wrong_size bytes_received REQUEST_SIZE], none⟩
    else
      match deserialize_request (some recv_buffer) (some request) with
      | (0, some request) =>
        let validation_status := validate_request_server (some request)
        let response := build_response fm sample validation_status request
        let (serialized_len, send_buffer) :=
          serialize_response host (some response) (some send_buffer)
        if serialized_len < 0 then ⟨[ServerError.serialize_failed], none⟩
        else
          match send_buffer with
          | some send_buffer => ⟨[], some (send_buffer.take serialized_len.toNat, client_addr)⟩
          | none => ⟨[ServerError.serialize_failed], none⟩
      | _ => ⟨[ServerError.deserialize_failed], none⟩

/-! ## Vocabulary of the statements -/

/-- The C string held in a region of memory: its bytes before the first zero byte. -/
def cstr (s : List Nat) : List Nat := s.takeWhile (· ≠ 0)

/-- A letter: `A`..`Z` or `a`..`z`. -/
def is_letter (c : Nat) : Bool := (65 ≤ c && c ≤ 90) || (97 ≤ c && c ≤ 122)

/-- A character allowed in a city name: a letter, a space, an apostrophe or a
hyphen. -/
def allowed_city_char (c : Nat) : Bool := is_letter c || c = 32 || c = 39 || c = 45

/-- Two characters that are equal, or the same letter in upper and lower case. -/
def same_ignoring_case (a b : Nat) : Bool :=
  a = b || (65 ≤ a && a ≤ 90 && b = a + 32) || (65 ≤ b && b ≤ 90 && a = b + 32)

/-- Two strings equal ignoring letter case. -/
def equal_ignoring_case : List Nat → List Nat → Bool
  | [], [] => true
  | a :: s, b :: t => same_ignoring_case a b && equal_ignoring_case s t
  | _, _ => false

/-- One of the four kinds `t`, `h`, `w`, `p`. -/
def known_kind (kind : Nat) : Bool :=
  kind = 116 || kind = 104 || kind = 119 || kind = 112

/-- The 64-byte field holding `name` followed by zero bytes. -/
def city_field (name : List Nat) : List Nat := name ++ List.replicate (64 - name.length) 0

/-- The first token of the input: its text before the first space. -/
def first_token (input : List Nat) : List Nat := (cstr input).takeWhile (· ≠ 32)

/-- The city text of the input: what follows the first character and the spaces
after it. -/
def city_text (input : List Nat) : List Nat := ((cstr input).drop 1).dropWhile (· = 32)

/-- The 9-byte frame of a response: status, kind and value bits, each number most
significant byte first. -/
def response_frame (response : weather_response_t) : List Nat :=
  be_bytes response.status ++ [response.type] ++ be_bytes response.value

/-- The request held in the first 65 bytes of a datagram: the kind byte and the
64 bytes behind it with the last one forced to zero. -/
def decoded_request (datagram : List Nat) : weather_request_t :=
  ⟨datagram.headD 0 % 256, ((datagram.drop 1).take 64).set 63 0⟩

/-! ## Lemmas on the C library model -/

theorem list_of_length_ge_nine (l : List Nat) (h : 9 ≤ l.length) :
    ∃ b0 b1 b2 b3 b4 b5 b6 b7 b8 rest, l = b0 :: b1 :: b2 :: b3 :: b4 :: b5 :: b6 :: b7 :: b8 :: rest := by
  match l, h with
  | b0 :: b1 :: b2 :: b3 :: b4 :: b5 :: b6 :: b7 :: b8 :: rest, _ =>
    exact ⟨b0, b1, b2, b3, b4, b5, b6, b7, b8, rest, rfl⟩


theorem be_bytes_compose (a b c d : Nat) (ha : a < 256) (hb : b < 256) (hc : c < 256)
    (hd : d < 256) : be_bytes (a * 16777216 + b * 65536 + c * 256 + d) = [a, b, c, d] := by
  simp only [be_bytes, List.cons.injEq, and_true]
  refine ⟨?_, ?_, ?_, ?_⟩ <;> omega

theorem compose_be_bytes (x : Nat) (hx : x < 4294967296) :
    x / 16777216 % 256 * 16777216 + x / 65536 % 256 * 65536 + x / 256 % 256 * 256 + x % 256
      = x := by
  omega

theorem bswap32_compose (a b c d : Nat) (ha : a < 256) (hb : b < 256) (hc : c < 256)
    (hd : d < 256) :
    bswap32 (a * 16777216 + b * 65536 + c * 256 + d)
      = d * 16777216 + c * 65536 + b * 256 + a := by
  have h := be_bytes_compose a b c d ha hb hc hd
  simp only [be_bytes, List.cons.injEq, and_true] at h
  obtain ⟨h1, h2, h3, h4⟩ := h
  simp only [bswap32, h1, h2, h3, h4]

theorem store32_htonl (host : ByteOrder) (x : Nat) (hx : x < 4294967296) :
    store32 host (htonl host x) = be_bytes x := by
  cases host
  · have h := bswap32_compose (x / 16777216 % 256) (x / 65536 % 256) (x / 256 % 256) (x % 256)
      (Nat.mod_lt _ (by norm_num)) (Nat.mod_lt _ (by norm_num)) (Nat.mod_lt _ (by norm_num))
      (Nat.mod_lt _ (by norm_num))
    rw [compose_be_bytes x hx] at h
    simp only [store32, htonl, h]
    rw [be_bytes_compose _ _ _ _ (Nat.mod_lt _ (by norm_num)) (Nat.mod_lt _ (by norm_num))
      (Nat.mod_lt _ (by norm_num)) (Nat.mod_lt _ (by norm_num))]
    simp [be_bytes]
  · simp only [store32, htonl, Nat.mod_eq_of_lt hx]

theorem load32_store32 (host : ByteOrder) (x : Nat) (hx : x < 4294967296) :
    load32 host (store32 host x) = x := by
  cases host <;> simp [load32, store32, be_bytes] <;> omega

theorem ntohl_load32 (host : ByteOrder) (a b c d : Nat) (rest : List Nat) (ha : a < 256)
    (hb : b < 256) (hc : c < 256) (hd : d < 256) :
    ntohl host (load32 host (a :: b :: c :: d :: rest))
      = a * 16777216 + b * 65536 + c * 256 + d := by
  cases host
  · simp only [ntohl, load32, List.getD_cons_zero, List.getD_cons_succ,
      Nat.mod_eq_of_lt ha, Nat.mod_eq_of_lt hb, Nat.mod_eq_of_lt hc, Nat.mod_eq_of_lt hd]
    exact bswap32_compose d c b a hd hc hb ha
  · simp only [ntohl, load32, List.getD_cons_zero, List.getD_cons_succ,
      Nat.mod_eq_of_lt ha, Nat.mod_eq_of_lt hb, Nat.mod_eq_of_lt hc, Nat.mod_eq_of_lt hd]
    omega

theorem serialize_response_eq (host : ByteOrder) (r : weather_response_t) (buffer : List Nat)
    (hs : r.status < 4294967296) (hk : r.type < 256) (hv : r.value < 4294967296)
    (hb : 9 ≤ buffer.length) :
    serialize_response host (some r) (some buffer) =
      (9, some (be_bytes r.status ++ [r.type] ++ be_bytes r.value ++ buffer.drop 9)) := by
  obtain ⟨b0, b1, b2, b3, b4, b5, b6, b7, b8, rest, rfl⟩ := list_of_length_ge_nine buffer hb
  simp only [serialize_response, load32_store32 host _ hv, store32_htonl host _ hs,
    store32_htonl host _ hv, Nat.mod_eq_of_lt hk]
  simp [memcpy, be_bytes]

theorem deserialize_response_eq (host : ByteOrder) (r r0 : weather_response_t)
    (rest : List Nat)
    (hs : r.status < 4294967296) (hk : r.type < 256) (hv : r.value < 4294967296) :
    deserialize_response host
        (some (be_bytes r.status ++ [r.type] ++ be_bytes r.value ++ rest)) (some r0)
      = (0, some r) := by
  have m : ∀ x : Nat, x % 256 < 256 := fun x => Nat.mod_lt _ (by norm_num)
  simp only [deserialize_response, be_bytes, List.cons_append, List.nil_append, List.drop_zero,
    List.drop_succ_cons, List.getD_cons_zero, List.getD_cons_succ, Nat.mod_eq_of_lt hk]
  rw [ntohl_load32 host _ _ _ _ _ (m _) (m _) (m _) (m _),
    ntohl_load32 host _ _ _ _ _ (m _) (m _) (m _) (m _),
    compose_be_bytes _ hs, compose_be_bytes _ hv, load32_store32 host _ hv]


theorem cstr_set_zero (l : List Nat) (n : Nat) (h : strlen l ≤ n) :
    cstr (l.set n 0) = cstr l := by
  induction l generalizing n with
  | nil => simp
  | cons c rest ih =>
    cases n with
    | zero =>
      have hc : c = 0 := by
        by_contra hc
        simp [strlen, hc] at h
      simp [cstr, hc]
    | succ k =>
      by_cases hc : c = 0
      · simp [cstr, hc]
      · simp only [strlen, hc, if_false, Nat.add_le_add_iff_right] at h
        have := ih k h
        simp only [cstr] at this
        simp only [cstr, ne_eq, decide_not] at this ⊢
        simp [hc, this]

theorem serialize_request_eq (r : weather_request_t) (buffer : List Nat)
    (hk : r.type < 256) (hc : r.city.length = 64) (hb : 65 ≤ buffer.length) :
    serialize_request (some r) (some buffer)
      = (65, some (r.type :: r.city ++ buffer.drop 65)) := by
  cases buffer with
  | nil => simp at hb
  | cons b0 rest =>
    have h64 : List.take 64 r.city = r.city := List.take_of_length_le (by omega)
    simp [serialize_request, memcpy, Nat.mod_eq_of_lt hk, h64]

theorem deserialize_request_eq (kind : Nat) (city rest : List Nat) (r0 : weather_request_t)
    (hk : kind < 256) (hc : city.length = 64) (h0 : r0.city.length = 64) :
    deserialize_request (some (kind :: city ++ rest)) (some r0)
      = (0, some ⟨kind, city.set 63 0⟩) := by
  have h64 : List.take 64 (city ++ rest) = city := by
    rw [List.take_append_of_le_length (by omega), List.take_of_length_le (by omega)]
  have hd : List.drop 64 r0.city = [] := List.drop_of_length_le (by omega)
  simp [deserialize_request, memcpy, Nat.mod_eq_of_lt hk, h64, hd]

theorem cstr_cons_zero (rest : List Nat) : cstr (0 :: rest) = [] := by
  simp [cstr]

theorem cstr_cons_ne (c : Nat) (rest : List Nat) (hc : c ≠ 0) :
    cstr (c :: rest) = c :: cstr rest := by
  simp [cstr, hc]

theorem city_scan_rejects_cons (c : Nat) (rest : List Nat) (h0 : c ≠ 0) (hc : c < 256) :
    city_scan_rejects (c :: rest) = (!allowed_city_char c || city_scan_rejects rest) := by
  have hiso : isalpha c = is_letter c := rfl
  simp only [city_scan_rejects, h0, if_false, Nat.mod_eq_of_lt hc, allowed_city_char, hiso]
  by_cases h9 : c = 9
  · subst h9
    simp [is_letter]
  · simp only [h9, if_false]
    cases is_letter c <;> by_cases h32 : c = 32 <;> by_cases h39 : c = 39 <;>
      by_cases h45 : c = 45 <;> simp [h32, h39, h45]

theorem city_scan_rejects_iff (l : List Nat) (hl : ∀ c ∈ l, c < 256) :
    city_scan_rejects l = true ↔ ∃ c ∈ cstr l, allowed_city_char c = false := by
  induction l with
  | nil => simp [city_scan_rejects, cstr]
  | cons c rest ih =>
    have ih := ih (fun x hx => hl x (List.mem_cons_of_mem _ hx))
    have hc : c < 256 := hl c (List.mem_cons_self _ _)
    by_cases h0 : c = 0
    · subst h0
      simp [city_scan_rejects, cstr_cons_zero]
    · rw [cstr_cons_ne c rest h0, city_scan_rejects_cons c rest h0 hc]
      simp [ih]

theorem tolower_eq_iff (a b : Nat) :
    tolower a = tolower b ↔ same_ignoring_case a b = true := by
  simp only [tolower, same_ignoring_case, Bool.or_eq_true, Bool.and_eq_true, decide_eq_true_eq]
  split <;> split <;> omega

theorem compare_case_insensitive_iff (s t : List Nat) (hs : ∀ c ∈ s, c < 256)
    (ht : ∀ c ∈ t, c < 256) :
    compare_case_insensitive s t ≠ 0 ↔ equal_ignoring_case (cstr s) (cstr t) = true := by
  induction s generalizing t with
  | nil =>
    cases t with
    | nil => simp [compare_case_insensitive, deref, cstr, equal_ignoring_case]
    | cons b t =>
      by_cases hb : b = 0
      · subst hb
        simp [compare_case_insensitive, deref, cstr, equal_ignoring_case]
      · simp [compare_case_insensitive, deref, cstr, equal_ignoring_case, hb]
  | cons a s ih =>
    have ha : a < 256 := hs a (List.mem_cons_self _ _)
    cases t with
    | nil =>
      by_cases ha0 : a = 0
      · subst ha0
        simp [compare_case_insensitive, cstr, equal_ignoring_case]
      · simp [compare_case_insensitive, cstr, equal_ignoring_case, ha0]
    | cons b t =>
      have hb : b < 256 := ht b (List.mem_cons_self _ _)
      have ih := ih t (fun x hx => hs x (List.mem_cons_of_mem _ hx))
        (fun x hx => ht x (List.mem_cons_of_mem _ hx))
      by_cases ha0 : a = 0
      · subst ha0
        by_cases hb0 : b = 0
        · subst hb0
          simp [compare_case_insensitive, cstr, equal_ignoring_case]
        · simp [compare_case_insensitive, cstr_cons_zero, cstr_cons_ne b t hb0,
            equal_ignoring_case, hb0]
      · by_cases hb0 : b = 0
        · subst hb0
          simp [compare_case_insensitive, cstr_cons_zero, cstr_cons_ne a s ha0,
            equal_ignoring_case, ha0]
        · rw [cstr_cons_ne a s ha0, cstr_cons_ne b t hb0]
          simp only [compare_case_insensitive, ha0, hb0, ne_eq, not_false_eq_true, and_self,
            if_true, Nat.mod_eq_of_lt ha, Nat.mod_eq_of_lt hb, equal_ignoring_case,
            Bool.and_eq_true]
          by_cases hl : tolower a = tolower b
          · simp only [hl, not_true_eq_false, if_false]
            rw [← ne_eq, ih]
            simp [(tolower_eq_iff a b).mp hl]
          · have : same_ignoring_case a b = false := by
              cases h : same_ignoring_case a b
              · rfl
              · exact absurd ((tolower_eq_iff a b).mpr h) hl
            simp [hl, this]


theorem check_city_loop_iff (s : List Nat) (names : List (List Nat))
    (hs : ∀ c ∈ s, c < 256) (hn : ∀ name ∈ names, ∀ c ∈ name, c < 256) :
    check_city_loop s names ≠ 0 ↔
      ∃ name ∈ names, equal_ignoring_case (cstr s) (cstr name) = true := by
  induction names with
  | nil => simp [check_city_loop]
  | cons entry rest ih =>
    have ih := ih (fun n h => hn n (List.mem_cons_of_mem _ h))
    have he := compare_case_insensitive_iff s entry hs (hn entry (List.mem_cons_self _ _))
    simp only [check_city_loop, List.mem_cons, exists_eq_or_imp]
    by_cases h : compare_case_insensitive s entry ≠ 0
    · simp [h, he.mp h]
    · have hf : ¬ equal_ignoring_case (cstr s) (cstr entry) = true := fun h2 => h (he.mpr h2)
      have hf2 : equal_ignoring_case (cstr s) (cstr entry) = false := by
        cases h3 : equal_ignoring_case (cstr s) (cstr entry)
        · rfl
        · exact absurd h3 hf
      simp only [h, if_false, hf2, Bool.false_eq_true, false_or]
      exact ih

theorem supported_cities_bytes : ∀ name ∈ supported_cities, ∀ c ∈ name, c < 256 := by
  decide

theorem supported_cities_cstr : ∀ name ∈ supported_cities, cstr name = name := by
  decide

theorem check_city_availability_iff (s : List Nat) (hs : ∀ c ∈ s, c < 256) :
    check_city_availability s ≠ 0 ↔
      ∃ name ∈ supported_cities, equal_ignoring_case (cstr s) name = true := by
  rw [check_city_availability, check_city_loop_iff s _ hs supported_cities_bytes]
  constructor
  · rintro ⟨name, hm, h⟩
    exact ⟨name, hm, by rwa [supported_cities_cstr name hm] at h⟩
  · rintro ⟨name, hm, h⟩
    exact ⟨name, hm, by rwa [supported_cities_cstr name hm]⟩

theorem strlen_eq (s : List Nat) : strlen s = (cstr s).length := by
  induction s with
  | nil => rfl
  | cons c rest ih =>
    by_cases hc : c = 0
    · subst hc
      simp [strlen, cstr_cons_zero]
    · simp [strlen, hc, cstr_cons_ne c rest hc, ih]

theorem strchr_eq (s : List Nat) (c : Nat) (hc : c ≠ 0) :
    strchr s c =
      if c ∈ cstr s then some ((cstr s).takeWhile (· ≠ c)).length else none := by
  induction s with
  | nil => simp [strchr, hc, cstr]
  | cons x rest ih =>
    by_cases hx : x = c
    · subst hx
      simp [strchr, cstr_cons_ne x rest hc]
    · by_cases h0 : x = 0
      · subst h0
        simp [strchr, cstr_cons_zero, hx]
      · rw [cstr_cons_ne x rest h0]
        simp only [strchr, hx, h0, if_false, ih, List.mem_cons]
        have hcx : ¬ c = x := fun h => hx h.symm
        by_cases hm : c ∈ cstr rest
        · simp [hm, hx]
        · simp [hm, hcx]

theorem cstr_drop_one (s : List Nat) (h : deref s ≠ 0) : cstr (s.drop 1) = (cstr s).drop 1 := by
  cases s with
  | nil => rfl
  | cons c rest =>
    have hc : c ≠ 0 := by simpa [deref] using h
    simp [cstr_cons_ne c rest hc]

theorem cstr_skip_spaces (l : List Nat) :
    cstr (skip_spaces l) = (cstr l).dropWhile (· = 32) := by
  induction l with
  | nil => rfl
  | cons c rest ih =>
    by_cases h0 : c = 0
    · subst h0
      simp [skip_spaces, cstr_cons_zero]
    · rw [cstr_cons_ne c rest h0]
      by_cases h32 : c = 32
      · subst h32
        simp [skip_spaces, ih]
      · simp [skip_spaces, h32, cstr_cons_ne c rest h0]

theorem deref_eq_zero_iff (l : List Nat) : deref l = 0 ↔ cstr l = [] := by
  cases l with
  | nil => simp [deref, cstr]
  | cons c rest =>
    by_cases h0 : c = 0
    · subst h0
      simp [deref, cstr_cons_zero]
    · simp [deref, h0, cstr_cons_ne c rest h0]

theorem strncpy_nil_src (dst : List Nat) (n : Nat) (h : n ≤ dst.length) :
    strncpy dst [] n = List.replicate n 0 ++ dst.drop n := by
  induction n generalizing dst with
  | zero => simp [strncpy]
  | succ n ih =>
    cases dst with
    | nil => simp at h
    | cons d dst =>
      simp only [List.length_cons, Nat.add_le_add_iff_right] at h
      simp [strncpy, ih dst h, List.replicate_succ]

theorem strncpy_eq (dst src : List Nat) (n : Nat) (h : n ≤ dst.length) :
    strncpy dst src n =
      (cstr src).take n ++ List.replicate (n - (cstr src).length) 0 ++ dst.drop n := by
  induction n generalizing dst src with
  | zero => simp [strncpy]
  | succ n ih =>
    cases dst with
    | nil => simp at h
    | cons d dst =>
      simp only [List.length_cons, Nat.add_le_add_iff_right] at h
      cases src with
      | nil => simp [strncpy, strncpy_nil_src dst n h, cstr, List.replicate_succ]
      | cons c src =>
        by_cases h0 : c = 0
        · subst h0
          simp [strncpy, strncpy_nil_src dst n h, cstr_cons_zero, List.replicate_succ]
        · rw [cstr_cons_ne c src h0]
          simp [strncpy, h0, ih dst src h]

theorem parsed_city_field (dst cursor : List Nat) (hd : dst.length = 64)
    (hc : (cstr cursor).length < 64) :
    (strncpy dst cursor (64 - 1)).set (64 - 1) 0 = city_field (cstr cursor) := by
  rw [strncpy_eq dst cursor 63 (by omega)]
  have ht : List.take 63 (cstr cursor) = cstr cursor := List.take_of_length_le (by omega)
  obtain ⟨x, hx⟩ : ∃ x, List.drop 63 dst = [x] := by
    have hl : (List.drop 63 dst).length = 1 := by simp [hd]
    match hdr : List.drop 63 dst, hl with
    | [x], _ => exact ⟨x, rfl⟩
  rw [ht, hx, List.append_assoc, List.set_append_right _ _ (by omega)]
  rw [List.set_append_right _ _ (by simp)]
  simp only [city_field]
  have : 64 - (cstr cursor).length = (63 - (cstr cursor).length) + 1 := by omega
  rw [this, List.replicate_succ']
  simp


theorem parse_weather_request_eq (input : List Nat) (r0 : weather_request_t)
    (hd : r0.city.length = 64) :
    parse_weather_request (some input) (some r0) =
      if (cstr input).length < 3 then (0, some r0, [])
      else if 9 ∈ cstr input then (0, some r0, [MSG_TAB])
      else if 32 ∉ cstr input then (0, some { r0 with type := deref input }, [MSG_FORMAT])
      else if (first_token input).length ≠ 1 then
        (0, some { r0 with type := deref input }, [MSG_SINGLE_CHAR])
      else if city_text input = [] then
        (0, some { r0 with type := deref input }, [MSG_MISSING_CITY])
      else if (city_text input).length ≥ 64 then
        (0, some { r0 with type := deref input }, [MSG_CITY_TOO_LONG])
      else (1, some ⟨deref input, city_field (city_text input)⟩, []) := by
  have e9 := strchr_eq input 9 (by decide)
  have e32 := strchr_eq input 32 (by decide)
  simp only [parse_weather_request, strlen_eq, e9, e32]
  by_cases h3 : (cstr input).length < 3
  · rw [if_pos h3, if_pos h3]
  · have hne : deref input ≠ 0 := by
      rw [ne_eq, deref_eq_zero_iff]
      intro h
      rw [h] at h3
      simp at h3
    have hcity : cstr (skip_spaces (input.drop 1)) = city_text input := by
      rw [cstr_skip_spaces, cstr_drop_one input hne, city_text]
    rw [if_neg h3, if_neg h3]
    by_cases h9 : 9 ∈ cstr input
    · rw [if_pos h9, if_pos h9]
      simp
    · rw [if_neg h9, if_neg h9]
      simp only [Option.isSome_none, Bool.false_eq_true, if_false]
      by_cases h32 : 32 ∈ cstr input
      · rw [if_pos h32, if_neg (not_not.mpr h32)]
        simp only [first_token]
        by_cases h1 : (List.takeWhile (· ≠ 32) (cstr input)).length = 1
        · rw [if_neg (not_not.mpr h1), if_neg (not_not.mpr h1)]
          simp only [deref_eq_zero_iff, hcity]
          by_cases he : city_text input = []
          · rw [if_pos he, if_pos he]
          · rw [if_neg he, if_neg he]
            by_cases hl : (city_text input).length ≥ 64
            · rw [if_pos hl, if_pos hl]
            · rw [if_neg hl, if_neg hl,
                parsed_city_field r0.city _ hd (by rw [hcity]; omega), hcity]
        · rw [if_pos h1, if_pos h1]
      · rw [if_neg h32, if_pos h32]


theorem cstr_eq_self (l : List Nat) (h : 0 ∉ l) : cstr l = l := by
  rw [cstr, List.takeWhile_eq_self_iff]
  intro x hx
  have : x ≠ 0 := fun h0 => h (h0 ▸ hx)
  simpa using this

theorem dropWhile_replicate_append (n : Nat) (city : List Nat)
    (hsp : city.head? ≠ some 32) :
    List.dropWhile (· = 32) (List.replicate n 32 ++ city) = city := by
  induction n with
  | zero =>
    cases city with
    | nil => rfl
    | cons c rest =>
      have hc : c ≠ 32 := by simpa using hsp
      simp [List.dropWhile, hc]
  | succ n ih => simpa [List.replicate_succ, List.dropWhile] using ih

theorem parse_weather_request_accepts (k n : Nat) (city : List Nat) (r0 : weather_request_t)
    (hk0 : k ≠ 0) (hk9 : k ≠ 9) (hk32 : k ≠ 32) (hn : 1 ≤ n) (hne : city ≠ [])
    (hsp : city.head? ≠ some 32) (h9 : 9 ∉ city) (h0 : 0 ∉ city) (hlen : city.length ≤ 63)
    (hd : r0.city.length = 64) :
    parse_weather_request (some (k :: List.replicate n 32 ++ city)) (some r0)
      = (1, some ⟨k, city_field city⟩, []) := by
  have hz : 0 ∉ k :: List.replicate n 32 ++ city := by
    simp only [List.cons_append, List.mem_cons, List.mem_append, List.mem_replicate, not_or]
    exact ⟨fun h => hk0 h.symm, fun h => by simp at h, h0⟩
  have hc := cstr_eq_self _ hz
  have hpos : 0 < city.length := List.length_pos.mpr hne
  obtain ⟨m, rfl⟩ : ∃ m, n = m + 1 := ⟨n - 1, by omega⟩
  have htext : city_text (k :: List.replicate (m + 1) 32 ++ city) = city := by
    rw [city_text, hc]
    exact dropWhile_replicate_append (m + 1) city hsp
  have htok : first_token (k :: List.replicate (m + 1) 32 ++ city) = [k] := by
    rw [first_token, hc]
    simp [List.replicate_succ, List.takeWhile, hk32]
  rw [parse_weather_request_eq _ r0 hd, htext, htok, hc]
  have h3 : ¬ (k :: List.replicate (m + 1) 32 ++ city).length < 3 := by
    simp; omega
  have h9' : 9 ∉ k :: List.replicate (m + 1) 32 ++ city := by
    simp only [List.cons_append, List.mem_cons, List.mem_append, List.mem_replicate, not_or]
    exact ⟨fun h => hk9 h.symm, fun h => by simp at h, h9⟩
  have h32 : 32 ∈ k :: List.replicate (m + 1) 32 ++ city := by
    simp [List.replicate_succ]
  rw [if_neg h3, if_neg h9', if_neg (not_not.mpr h32), if_neg (by simp), if_neg hne,
    if_neg (by omega)]
  simp [deref]

theorem generate_random_float_bounds (fm : FloatModel) (sample : Nat) (lo hi : ℤ)
    (hmono : Monotone fm.rnd)
    (hexact : ∀ n : ℤ, |n| ≤ 16777216 → fm.rnd (n : ℚ) = (n : ℚ))
    (hmax : 1 ≤ fm.RAND_MAX) (hsample : sample ≤ fm.RAND_MAX)
    (hlo : |lo| ≤ 16777216) (hhi : |hi| ≤ 16777216) (hd : |hi - lo| ≤ 16777216)
    (hle : lo ≤ hi) :
    (lo : ℚ) ≤ generate_random_float fm sample lo hi ∧
      generate_random_float fm sample lo hi ≤ (hi : ℚ) := by
  have h0 : fm.rnd 0 = 0 := by simpa using hexact 0 (by norm_num)
  have h1 : fm.rnd 1 = 1 := by simpa using hexact 1 (by norm_num)
  have hs0 : 0 ≤ fm.rnd (sample : ℚ) := by
    rw [← h0]
    exact hmono (by positivity)
  have hsm : fm.rnd (sample : ℚ) ≤ fm.rnd (fm.RAND_MAX : ℚ) :=
    hmono (by exact_mod_cast hsample)
  have hm1 : 1 ≤ fm.rnd (fm.RAND_MAX : ℚ) := by
    rw [← h1]
    exact hmono (by exact_mod_cast hmax)
  have hq0 : 0 ≤ fm.rnd (sample : ℚ) / fm.rnd (fm.RAND_MAX : ℚ) :=
    div_nonneg hs0 (by linarith)
  have hq1 : fm.rnd (sample : ℚ) / fm.rnd (fm.RAND_MAX : ℚ) ≤ 1 :=
    (div_le_one (by linarith)).mpr hsm
  have hf0 : 0 ≤ fm.rnd (fm.rnd (sample : ℚ) / fm.rnd (fm.RAND_MAX : ℚ)) := by
    rw [← h0]
    exact hmono hq0
  have hf1 : fm.rnd (fm.rnd (sample : ℚ) / fm.rnd (fm.RAND_MAX : ℚ)) ≤ 1 := by
    rw [← h1]
    exact hmono hq1
  have hdiff : fm.rnd ((hi : ℚ) - (lo : ℚ)) = (hi : ℚ) - (lo : ℚ) := by
    have := hexact (hi - lo) hd
    simpa using this
  have hd0 : (0 : ℚ) ≤ (hi : ℚ) - (lo : ℚ) := by
    have : (lo : ℚ) ≤ (hi : ℚ) := by exact_mod_cast hle
    linarith
  have hp0 : 0 ≤ fm.rnd (fm.rnd (sample : ℚ) / fm.rnd (fm.RAND_MAX : ℚ)) * ((hi : ℚ) - lo) :=
    mul_nonneg hf0 hd0
  have hp1 : fm.rnd (fm.rnd (sample : ℚ) / fm.rnd (fm.RAND_MAX : ℚ)) * ((hi : ℚ) - lo)
      ≤ (hi : ℚ) - lo := by
    calc _ ≤ 1 * ((hi : ℚ) - lo) := mul_le_mul_of_nonneg_right hf1 hd0
      _ = (hi : ℚ) - lo := one_mul _
  have hg0 : 0 ≤ fm.rnd (fm.rnd (fm.rnd (sample : ℚ) / fm.rnd (fm.RAND_MAX : ℚ))
      * ((hi : ℚ) - lo)) := by
    rw [← h0]
    exact hmono hp0
  have hg1 : fm.rnd (fm.rnd (fm.rnd (sample : ℚ) / fm.rnd (fm.RAND_MAX : ℚ))
      * ((hi : ℚ) - lo)) ≤ (hi : ℚ) - lo := by
    rw [← hdiff]
    exact hmono (by rw [hdiff]; exact hp1)
  simp only [generate_random_float, hdiff]
  constructor
  · rw [← hexact lo hlo]
    apply hmono
    rw [hexact lo hlo]
    linarith
  · rw [← hexact hi hhi]
    apply hmono
    rw [hexact hi hhi]
    linarith


theorem eighths_model_monotone : Monotone eighths_model.rnd := by
  intro a b h
  have h8 : a * 8 ≤ b * 8 := by linarith
  have hf : ((⌊a * 8⌋ : ℤ) : ℚ) ≤ ((⌊b * 8⌋ : ℤ) : ℚ) := by
    exact_mod_cast Int.floor_mono h8
  show ((⌊a * 8⌋ : ℤ) : ℚ) / 8 ≤ ((⌊b * 8⌋ : ℤ) : ℚ) / 8
  linarith

theorem eighths_model_exact (n : ℤ) : eighths_model.rnd (n : ℚ) = (n : ℚ) := by
  show ((⌊(n : ℚ) * 8⌋ : ℤ) : ℚ) / 8 = (n : ℚ)
  have h : (n : ℚ) * 8 = ((n * 8 : ℤ) : ℚ) := by push_cast; ring
  rw [h, Int.floor_intCast]
  push_cast
  ring

theorem eighths_model_bits (q : ℚ) : eighths_model.bits q < 4294967296 := by
  show (⌊q * 8⌋ % 4294967296).toNat < 4294967296
  have h1 := Int.emod_nonneg ⌊q * 8⌋ (by norm_num : (4294967296 : ℤ) ≠ 0)
  have h2 := Int.emod_lt_of_pos ⌊q * 8⌋ (by norm_num : (0 : ℤ) < 4294967296)
  omega

theorem recvfrom_pos (buffer : List Nat) (len : Nat) (datagram : List Nat)
    (hd : datagram ≠ []) (hl : 0 < len) : ¬ (recvfrom buffer len datagram).1 ≤ 0 := by
  have hpos : 0 < datagram.length := List.length_pos.mpr hd
  simp only [recvfrom, not_le]
  have : 0 < min datagram.length len := lt_min hpos hl
  exact_mod_cast this

theorem recvfrom_request_full (recv_buffer datagram : List Nat) (hd : 65 ≤ datagram.length) :
    recvfrom recv_buffer REQUEST_SIZE datagram
      = (65, datagram.take 65 ++ recv_buffer.drop 65) := by
  have hmin : min datagram.length REQUEST_SIZE = 65 := by
    simp only [REQUEST_SIZE]; omega
  simp only [recvfrom, hmin, memcpy]
  simp

theorem validate_request_server_range (request : Option weather_request_t) :
    validate_request_server request = STATUS_SUCCESS ∨
    validate_request_server request = STATUS_CITY_NOT_FOUND ∨
    validate_request_server request = STATUS_INVALID_REQUEST := by
  cases request with
  | none => simp [validate_request_server]
  | some r =>
    simp only [validate_request_server]
    split_ifs <;> simp

theorem build_response_spec (fm : FloatModel) (sample : Nat) (request : weather_request_t) :
    (build_response fm sample (validate_request_server (some request)) request).status
        = validate_request_server (some request) ∧
      (build_response fm sample (validate_request_server (some request)) request).type
        = request.type ∧
      (validate_request_server (some request) ≠ STATUS_SUCCESS →
        (build_response fm sample (validate_request_server (some request)) request).value
          = 0) := by
  rcases validate_request_server_range (some request) with h | h | h <;>
    rw [h] <;> simp only [build_response, STATUS_SUCCESS, STATUS_CITY_NOT_FOUND,
      STATUS_INVALID_REQUEST] <;> refine ⟨?_, ?_, ?_⟩ <;> simp <;> split_ifs <;> rfl


theorem deserialize_request_frame (buffer : List Nat) (request : weather_request_t)
    (hb : 65 ≤ buffer.length) (hreq : request.city.length = 64) :
    deserialize_request (some buffer) (some request) = (0, some (decoded_request buffer)) := by
  cases buffer with
  | nil => simp at hb
  | cons b0 tail =>
    have hd : List.drop 64 request.city = [] := List.drop_of_length_le (by omega)
    simp [deserialize_request, decoded_request, memcpy, hd]

theorem decoded_request_take (datagram rest : List Nat) (hd : 65 ≤ datagram.length) :
    decoded_request (datagram.take 65 ++ rest) = decoded_request datagram := by
  cases datagram with
  | nil => simp at hd
  | cons b0 tail =>
    simp only [List.length_cons] at hd
    have h1 : List.take 64 (List.take 64 tail ++ rest) = List.take 64 tail := by
      rw [List.take_append_of_le_length (by simp; omega), List.take_take]
      simp
    simp [decoded_request, h1]

theorem build_response_bounds (fm : FloatModel) (sample status : Nat)
    (request : weather_request_t) (hbits : ∀ q, fm.bits q < 4294967296)
    (hk : request.type < 256) :
    (build_response fm sample status request).status < 4294967296 ∧
      (build_response fm sample status request).type < 256 ∧
      (build_response fm sample status request).value < 4294967296 := by
  simp only [build_response, STATUS_SUCCESS, STATUS_CITY_NOT_FOUND, STATUS_INVALID_REQUEST]
  split_ifs <;> simp [hbits, hk]

theorem response_frame_length (response : weather_response_t) :
    (response_frame response).length = 9 := by
  simp [response_frame, be_bytes]

theorem server_step_full (host : ByteOrder) (fm : FloatModel) (sample : Nat)
    (recv_buffer send_buffer datagram : List Nat) (request : weather_request_t)
    (client_addr : sockaddr_in)
    (hd : 65 ≤ datagram.length) (hs : 9 ≤ send_buffer.length)
    (hreq : request.city.length = 64) (hbits : ∀ q, fm.bits q < 4294967296) :
    server_step host fm sample recv_buffer request send_buffer (some (datagram, client_addr))
      = ⟨[], some (response_frame (build_response fm sample
            (validate_request_server (some (decoded_request datagram)))
            (decoded_request datagram)), client_addr)⟩ := by
  have hlen : 65 ≤ (datagram.take 65 ++ recv_buffer.drop 65).length := by
    simp; omega
  have hk : (decoded_request datagram).type < 256 := Nat.mod_lt _ (by norm_num)
  obtain ⟨b1, b2, b3⟩ := build_response_bounds fm sample
    (validate_request_server (some (decoded_request datagram))) (decoded_request datagram)
    hbits hk
  simp only [server_step, recvfrom_request_full recv_buffer datagram hd,
    deserialize_request_frame _ request hlen hreq, decoded_request_take datagram _ hd,
    serialize_response_eq host _ send_buffer b1 b2 b3 hs]
  simp [REQUEST_SIZE, response_frame, be_bytes]

theorem server_step_short (host : ByteOrder) (fm : FloatModel) (sample : Nat)
    (recv_buffer send_buffer datagram : List Nat) (request : weather_request_t)
    (client_addr : sockaddr_in) (hd : datagram.length < 65) :
    server_step host fm sample recv_buffer request send_buffer (some (datagram, client_addr))
      = ⟨[ServerError.wrong_size datagram.length 65], none⟩ := by
  have hmin : min datagram.length REQUEST_SIZE = datagram.length := by
    simp only [REQUEST_SIZE]; omega
  simp only [server_step, recvfrom, hmin]
  have h1 : ¬ ((datagram.length : Nat) : Int) < 0 := by omega
  have h2 : ((datagram.length : Nat) : Int) ≠ ((REQUEST_SIZE : Nat) : Int) := by
    simp only [REQUEST_SIZE]; omega
  rw [if_neg h1, if_pos h2]
  simp [REQUEST_SIZE]


theorem eighths_model_temperature : eighths_model.bits (get_temperature eighths_model 12345) = 70 := by
  have e1 : eighths_model.rnd ((12345 : ℕ) : ℚ) = 12345 := by
    simpa using eighths_model_exact 12345
  have e2 : eighths_model.rnd ((eighths_model.RAND_MAX : ℕ) : ℚ) = 32767 := by
    simpa [eighths_model] using eighths_model_exact 32767
  have e3 : eighths_model.rnd (40 - (-10)) = 50 := by
    have := eighths_model_exact 50
    norm_num at this ⊢
    exact this
  have f1 : ⌊(12345 : ℚ) / 32767 * 8⌋ = 3 := by
    rw [Int.floor_eq_iff]; norm_num
  have e4 : eighths_model.rnd (12345 / 32767) = 3 / 8 := by
    show ((⌊(12345 : ℚ) / 32767 * 8⌋ : ℤ) : ℚ) / 8 = 3 / 8
    rw [f1]; norm_num
  have f2 : ⌊(3 : ℚ) / 8 * 50 * 8⌋ = 150 := by
    rw [Int.floor_eq_iff]; norm_num
  have e5 : eighths_model.rnd (3 / 8 * 50) = 150 / 8 := by
    show ((⌊(3 : ℚ) / 8 * 50 * 8⌋ : ℤ) : ℚ) / 8 = 150 / 8
    rw [f2]; norm_num
  have f3 : ⌊((-10 : ℚ) + 150 / 8) * 8⌋ = 70 := by
    rw [Int.floor_eq_iff]; norm_num
  have e6 : eighths_model.rnd (-10 + 150 / 8) = 70 / 8 := by
    show ((⌊((-10 : ℚ) + 150 / 8) * 8⌋ : ℤ) : ℚ) / 8 = 70 / 8
    rw [f3]; norm_num
  have f4 : ⌊(70 : ℚ) / 8 * 8⌋ = 70 := by
    rw [Int.floor_eq_iff]; norm_num
  simp only [get_temperature, generate_random_float, e1, e2, e3, e4, e5, e6]
  show (⌊(70 : ℚ) / 8 * 8⌋ % 4294967296).toNat = 70
  rw [f4]
  rfl

theorem same_ignoring_case_letter (a b : Nat) (h : same_ignoring_case a b = true)
    (hb : is_letter b = true) : is_letter a = true := by
  simp only [same_ignoring_case, is_letter, Bool.or_eq_true, Bool.and_eq_true,
    decide_eq_true_eq] at h hb ⊢
  omega

theorem equal_ignoring_case_letters (s t : List Nat) (h : equal_ignoring_case s t = true)
    (ht : ∀ c ∈ t, is_letter c = true) :
    (∀ c ∈ s, is_letter c = true) ∧ s.length = t.length := by
  induction s generalizing t with
  | nil =>
    cases t with
    | nil => simp
    | cons b t => simp [equal_ignoring_case] at h
  | cons a s ih =>
    cases t with
    | nil => simp [equal_ignoring_case] at h
    | cons b t =>
      simp only [equal_ignoring_case, Bool.and_eq_true] at h
      obtain ⟨ih1, ih2⟩ := ih t h.2 (fun c hc => ht c (List.mem_cons_of_mem _ hc))
      refine ⟨?_, by simp [ih2]⟩
      intro c hc
      rcases List.mem_cons.mp hc with rfl | hc
      · exact same_ignoring_case_letter _ b h.1 (ht b (List.mem_cons_self _ _))
      · exact ih1 c hc

theorem supported_cities_letters :
    ∀ name ∈ supported_cities, (∀ c ∈ name, is_letter c = true) ∧
      1 ≤ name.length ∧ name.length ≤ 63 := by
  decide

theorem is_letter_facts (c : Nat) (h : is_letter c = true) :
    c ≠ 0 ∧ c ≠ 9 ∧ c ≠ 32 ∧ c < 256 ∧ allowed_city_char c = true := by
  have h2 : allowed_city_char c = true := by simp [allowed_city_char, h]
  simp only [is_letter, Bool.or_eq_true, Bool.and_eq_true, decide_eq_true_eq] at h
  refine ⟨?_, ?_, ?_, ?_, h2⟩ <;> omega

theorem cstr_city_field (city : List Nat) (h0 : 0 ∉ city) (hlen : city.length ≤ 63) :
    cstr (city_field city) = city := by
  have hz : ∀ x ∈ city, decide (x ≠ 0) = true := by
    intro x hx
    have : x ≠ 0 := fun hx0 => h0 (hx0 ▸ hx)
    simpa using this
  cases hr : 64 - city.length with
  | zero => omega
  | succ m =>
    rw [city_field, hr, cstr, List.replicate_succ, List.takeWhile_append_of_pos hz]
    simp

theorem city_field_set (city : List Nat) (hlen : city.length ≤ 63) :
    (city_field city).set 63 0 = city_field city := by
  apply List.ext_getElem (by simp)
  intro i h1 h2
  rw [List.getElem_set]
  split
  · next hi =>
    subst hi
    simp only [city_field]
    rw [List.getElem_append_right (by omega)]
    simp
  · rfl

theorem validate_request_server_success (k : Nat) (city name : List Nat)
    (hk : known_kind k = true) (hname : name ∈ supported_cities)
    (hcase : equal_ignoring_case city name = true) :
    validate_request_server (some ⟨k, city_field city⟩) = STATUS_SUCCESS := by
  obtain ⟨hletters, hn1, hn2⟩ := supported_cities_letters name hname
  obtain ⟨hcity, hlen⟩ := equal_ignoring_case_letters city name hcase hletters
  have h0 : 0 ∉ city := fun hm => (is_letter_facts 0 (hcity 0 hm)).1 rfl
  have hcs := cstr_city_field city h0 (by omega)
  have hbytes : ∀ c ∈ city_field city, c < 256 := by
    intro c hc
    simp only [city_field, List.mem_append, List.mem_replicate] at hc
    rcases hc with hc | hc
    · exact (is_letter_facts c (hcity c hc)).2.2.2.1
    · omega
  have h1 : ¬ (k ≠ TYPE_TEMPERATURE ∧ k ≠ TYPE_HUMIDITY ∧ k ≠ TYPE_WIND ∧
      k ≠ TYPE_PRESSURE) := by
    have : k = 116 ∨ k = 104 ∨ k = 119 ∨ k = 112 := by
      simpa [known_kind, or_assoc] using hk
    simp only [TYPE_TEMPERATURE, TYPE_HUMIDITY, TYPE_WIND, TYPE_PRESSURE]
    omega
  have h2 : ¬ city_scan_rejects (city_field city) = true := by
    rw [city_scan_rejects_iff _ hbytes, hcs]
    rintro ⟨c, hm, hf⟩
    rw [(is_letter_facts c (hcity c hm)).2.2.2.2] at hf
    exact Bool.noConfusion hf
  have h3 : ¬ check_city_availability (city_field city) = 0 := by
    rw [← ne_eq, check_city_availability_iff _ hbytes, hcs]
    exact ⟨name, hname, hcase⟩
  simp only [validate_request_server]
  rw [if_neg h1, if_neg h2, if_neg h3]

theorem build_response_success (fm : FloatModel) (sample : Nat) (request : weather_request_t) :
    ∃ value, build_response fm sample STATUS_SUCCESS request
      = ⟨STATUS_SUCCESS, request.type, value⟩ := by
  simp only [build_response, if_true]
  split_ifs <;> exact ⟨_, rfl⟩


/-! ## Wire codec -/

/-- C1. Response round trip: for every response (32-bit status, kind character,
32-bit float bit pattern) and every pair of host byte orders, `serialize_response`
on the sending host returns 9, and `deserialize_response` on the receiving host,
applied to the 9 bytes written, returns 0 and yields the same status, the same
kind and the same value bits, whatever the response local held before. -/
theorem response_round_trip (server_host client_host : ByteOrder)
    (response initial : weather_response_t) (buffer : List Nat)
    (hs : response.status < 4294967296) (hk : response.type < 256)
    (hv : response.value < 4294967296) (hb : 9 ≤ buffer.length) :
    ∃ out,
      serialize_response server_host (some response) (some buffer) = (9, some out) ∧
      deserialize_response client_host (some (out.take 9)) (some initial)
        = (0, some response) := by
  refine ⟨_, serialize_response_eq server_host response buffer hs hk hv hb, ?_⟩
  have ht : List.take 9
      (be_bytes response.status ++ [response.type] ++ be_bytes response.value
        ++ List.drop 9 buffer)
      = be_bytes response.status ++ [response.type] ++ be_bytes response.value ++ [] := by
    simp [be_bytes]
  rw [ht]
  exact deserialize_response_eq client_host response initial [] hs hk hv

/-- Witness of C1: the invalid-request status, kind `t` and the float -10.0
(bits 0xC1200000), sent by a little-endian host to a big-endian one. -/
theorem response_round_trip_witness :
    (2 < 4294967296 ∧ 116 < 256 ∧ 3240099840 < 4294967296 ∧
      9 ≤ (List.replicate 9 255).length) ∧
    ∃ out,
      serialize_response .little (some ⟨2, 116, 3240099840⟩) (some (List.replicate 9 255))
        = (9, some out) ∧
      deserialize_response .big (some (out.take 9)) (some ⟨7, 7, 7⟩)
        = (0, some ⟨2, 116, 3240099840⟩) :=
  ⟨by decide, response_round_trip .little .big ⟨2, 116, 3240099840⟩ ⟨7, 7, 7⟩
    (List.replicate 9 255) (by decide) (by decide) (by decide) (by decide)⟩

/-- C2. Request round trip: for every request whose 64-byte city field holds a
null-terminated string of at most 63 characters, `serialize_request` returns 65
and `deserialize_request` applied to the 65 bytes written returns 0 and yields
the same kind and the same city string; the decoded field agrees with the
original on its first 63 bytes, has a zero last byte, and the decoded request is
the original one when the original's last byte is zero. -/
theorem request_round_trip (request initial : weather_request_t) (buffer : List Nat)
    (hk : request.type < 256) (hlen : request.city.length = 64)
    (hstr : strlen request.city ≤ 63)
    (hinit : initial.city.length = 64) (hb : 65 ≤ buffer.length) :
    ∃ out decoded,
      serialize_request (some request) (some buffer) = (65, some out) ∧
      deserialize_request (some (out.take 65)) (some initial) = (0, some decoded) ∧
      decoded.type = request.type ∧
      cstr decoded.city = cstr request.city ∧
      decoded.city.length = 64 ∧
      decoded.city.take 63 = request.city.take 63 ∧
      decoded.city.getD 63 0 = 0 ∧
      (request.city.getD 63 0 = 0 → decoded = request) := by
  refine ⟨_, ⟨request.type, request.city.set 63 0⟩, serialize_request_eq request buffer hk hlen hb, ?_,
    rfl, cstr_set_zero _ _ hstr, by simp [hlen], ?_, ?_, ?_⟩
  · have ht : List.take 65 (request.type :: request.city ++ List.drop 65 buffer)
        = request.type :: request.city ++ [] := by
      rw [List.take_append_of_le_length (by simp [hlen]),
        List.take_of_length_le (by simp [hlen])]
      simp
    rw [ht]
    exact deserialize_request_eq request.type request.city [] initial hk hlen hinit
  · show List.take 63 (request.city.set 63 0) = List.take 63 request.city
    rw [List.set_take, List.set_eq_of_length_le (by simp)]
  · simp [List.getD_eq_getElem?_getD, hlen]
  · intro h
    cases request with
    | mk kind city =>
      simp only [weather_request_t.mk.injEq, true_and]
      apply List.ext_getElem (by simp)
      intro i h1 h2
      simp only [List.getElem_set]
      split
      · next hi =>
        subst hi
        simp at hlen
        simp [List.getD_eq_getElem?_getD, List.getElem?_eq_getElem h2] at h
        exact h.symm
      · rfl

/-- Witness of C2: kind `t`, city "roma" padded with zero bytes. -/
theorem request_round_trip_witness :
    ((116 : Nat) < 256 ∧
      ([114, 111, 109, 97] ++ List.replicate 60 0 : List Nat).length = 64 ∧
      strlen ([114, 111, 109, 97] ++ List.replicate 60 0) ≤ 63 ∧
      (List.replicate 64 255 : List Nat).length = 64 ∧
      65 ≤ (List.replicate 65 255 : List Nat).length) ∧
    ∃ out decoded,
      serialize_request (some ⟨116, [114, 111, 109, 97] ++ List.replicate 60 0⟩)
        (some (List.replicate 65 255)) = (65, some out) ∧
      deserialize_request (some (out.take 65)) (some ⟨0, List.replicate 64 255⟩)
        = (0, some decoded) ∧
      decoded.type = 116 ∧
      cstr decoded.city = cstr ([114, 111, 109, 97] ++ List.replicate 60 0) ∧
      decoded.city.length = 64 ∧
      decoded.city.take 63 = ([114, 111, 109, 97] ++ List.replicate 60 0).take 63 ∧
      decoded.city.getD 63 0 = 0 ∧
      (([114, 111, 109, 97] ++ List.replicate 60 0 : List Nat).getD 63 0 = 0 →
        decoded = ⟨116, [114, 111, 109, 97] ++ List.replicate 60 0⟩) :=
  ⟨by decide, request_round_trip ⟨116, [114, 111, 109, 97] ++ List.replicate 60 0⟩
    ⟨0, List.replicate 64 255⟩ (List.replicate 65 255)
    (by decide) (by decide) (by decide) (by decide) (by decide)⟩

/-- C8. Response frame layout: for every response, `serialize_response` returns 9
and writes exactly the first 9 bytes of the buffer: the status most significant
byte first, the kind character, then the bits of the value most significant
byte first, on a little-endian host as on a big-endian one. -/
theorem serialize_response_frame_layout (host : ByteOrder) (response : weather_response_t)
    (buffer : List Nat)
    (hs : response.status < 4294967296) (hk : response.type < 256)
    (hv : response.value < 4294967296) (hb : 9 ≤ buffer.length) :
    ∃ out,
      serialize_response host (some response) (some buffer) = (9, some out) ∧
      out.take 9 =
        [response.status / 16777216 % 256, response.status / 65536 % 256,
          response.status / 256 % 256, response.status % 256,
          response.type,
          response.value / 16777216 % 256, response.value / 65536 % 256,
          response.value / 256 % 256, response.value % 256] ∧
      out.drop 9 = buffer.drop 9 ∧
      out.length = buffer.length := by
  refine ⟨_, serialize_response_eq host response buffer hs hk hv hb, ?_, ?_, ?_⟩
  · simp [be_bytes]
  · simp [be_bytes]
  · simp [be_bytes]
    omega

/-- Witness of C8: status 1, kind `p` and the float 1050.0 (bits 0x44834000) on a
little-endian host. -/
theorem serialize_response_frame_layout_witness :
    (1 < 4294967296 ∧ 112 < 256 ∧ 1149452288 < 4294967296 ∧
      9 ≤ (List.replicate 12 255).length) ∧
    ∃ out,
      serialize_response .little (some ⟨1, 112, 1149452288⟩) (some (List.replicate 12 255))
        = (9, some out) ∧
      out.take 9 =
        [1 / 16777216 % 256, 1 / 65536 % 256, 1 / 256 % 256, 1 % 256, 112,
          1149452288 / 16777216 % 256, 1149452288 / 65536 % 256,
          1149452288 / 256 % 256, 1149452288 % 256] ∧
      out.drop 9 = (List.replicate 12 255).drop 9 ∧
      out.length = (List.replicate 12 255).length :=
  ⟨by decide, serialize_response_frame_layout .little ⟨1, 112, 1149452288⟩
    (List.replicate 12 255) (by decide) (by decide) (by decide) (by decide)⟩

/-! ## Semantic stage -/

/-- C3. Semantic classification: `validate_request_server` returns InvalidRequest
when the kind is not one of `t`, `h`, `w`, `p` or the city string holds a
character that is not a letter, a space, an apostrophe or a hyphen; otherwise
CityNotFound when the city equals none of the ten supported names ignoring case;
otherwise Success.  "Bari", "bari", "BARI" are Success, "Atlantis" is
CityNotFound, an unknown kind, a digit or a tab give InvalidRequest, also in a
city that is not supported. -/
theorem validate_request_server_classification (request : weather_request_t)
    (hbytes : ∀ c ∈ request.city, c < 256) :
    ((known_kind request.type = false ∨
        ∃ c ∈ cstr request.city, allowed_city_char c = false) →
      validate_request_server (some request) = STATUS_INVALID_REQUEST) ∧
    (known_kind request.type = true →
      (∀ c ∈ cstr request.city, allowed_city_char c = true) →
      (∀ name ∈ supported_cities, equal_ignoring_case (cstr request.city) name = false) →
      validate_request_server (some request) = STATUS_CITY_NOT_FOUND) ∧
    (known_kind request.type = true →
      (∀ c ∈ cstr request.city, allowed_city_char c = true) →
      (∃ name ∈ supported_cities, equal_ignoring_case (cstr request.city) name = true) →
      validate_request_server (some request) = STATUS_SUCCESS) ∧
    validate_request_server (some ⟨116, city_field [66, 97, 114, 105]⟩) = STATUS_SUCCESS ∧
    validate_request_server (some ⟨104, city_field [98, 97, 114, 105]⟩) = STATUS_SUCCESS ∧
    validate_request_server (some ⟨119, city_field [66, 65, 82, 73]⟩) = STATUS_SUCCESS ∧
    validate_request_server (some ⟨112, city_field [65, 116, 108, 97, 110, 116, 105, 115]⟩)
      = STATUS_CITY_NOT_FOUND ∧
    validate_request_server (some ⟨120, city_field [66, 97, 114, 105]⟩)
      = STATUS_INVALID_REQUEST ∧
    validate_request_server (some ⟨116, city_field [66, 97, 114, 105, 49]⟩)
      = STATUS_INVALID_REQUEST ∧
    validate_request_server (some ⟨116, city_field [66, 97, 9, 114, 105]⟩)
      = STATUS_INVALID_REQUEST ∧
    validate_request_server (some ⟨116, city_field [65, 116, 108, 97, 110, 116, 105, 115, 55]⟩)
      = STATUS_INVALID_REQUEST := by
  have hkind : (request.type ≠ TYPE_TEMPERATURE ∧ request.type ≠ TYPE_HUMIDITY ∧
      request.type ≠ TYPE_WIND ∧ request.type ≠ TYPE_PRESSURE) ↔
      known_kind request.type = false := by
    simp only [TYPE_TEMPERATURE, TYPE_HUMIDITY, TYPE_WIND, TYPE_PRESSURE, known_kind,
      Bool.or_eq_false_iff, decide_eq_false_iff_not, ne_eq]
    tauto
  have hscan := city_scan_rejects_iff request.city hbytes
  have havail := check_city_availability_iff request.city hbytes
  refine ⟨?_, ?_, ?_, by decide, by decide, by decide, by decide, by decide, by decide,
    by decide, by decide⟩
  · rintro (hk | hc)
    · simp only [validate_request_server]
      rw [if_pos (hkind.mpr hk)]
    · simp only [validate_request_server]
      split
      · rfl
      · rw [if_pos (hscan.mpr hc)]
  · intro hk hc hn
    have h1 : ¬ (request.type ≠ TYPE_TEMPERATURE ∧ request.type ≠ TYPE_HUMIDITY ∧
        request.type ≠ TYPE_WIND ∧ request.type ≠ TYPE_PRESSURE) := by
      rw [hkind]; simp [hk]
    have h2 : ¬ city_scan_rejects request.city = true := by
      rw [hscan]
      rintro ⟨c, hm, hf⟩
      rw [hc c hm] at hf
      exact Bool.noConfusion hf
    have h3 : check_city_availability request.city = 0 := by
      by_contra h
      obtain ⟨name, hm, he⟩ := havail.mp h
      rw [hn name hm] at he
      exact Bool.noConfusion he
    simp only [validate_request_server]
    rw [if_neg h1, if_neg h2, if_pos h3]
  · intro hk hc hn
    have h1 : ¬ (request.type ≠ TYPE_TEMPERATURE ∧ request.type ≠ TYPE_HUMIDITY ∧
        request.type ≠ TYPE_WIND ∧ request.type ≠ TYPE_PRESSURE) := by
      rw [hkind]; simp [hk]
    have h2 : ¬ city_scan_rejects request.city = true := by
      rw [hscan]
      rintro ⟨c, hm, hf⟩
      rw [hc c hm] at hf
      exact Bool.noConfusion hf
    have h3 : ¬ check_city_availability request.city = 0 := havail.mpr hn
    simp only [validate_request_server]
    rw [if_neg h1, if_neg h2, if_neg h3]

/-- Witness of C3: kind `t` and the city "Bari" in its 64-byte field. -/
theorem validate_request_server_classification_witness :
    (∀ c ∈ (⟨116, city_field [66, 97, 114, 105]⟩ : weather_request_t).city, c < 256) ∧
    validate_request_server (some ⟨116, city_field [66, 97, 114, 105]⟩) = STATUS_SUCCESS :=
  ⟨by decide,
    (validate_request_server_classification ⟨116, city_field [66, 97, 114, 105]⟩
      (by decide)).2.2.1 (by decide) (by decide) (by decide)⟩

/-! ## Syntactic stage -/

/-- C4. Syntactic acceptance: for every input made of a kind `k` among `t`, `h`,
`w`, `p`, one or more spaces and a city that is non-empty, does not start with a
space, holds no tab and has at most 63 characters, `parse_weather_request`
returns 1, prints nothing, and leaves a request of kind `k` whose 64-byte field
holds the city followed by zero bytes, so that the string in the field is the
city. -/
theorem parse_weather_request_accepts_valid (k n : Nat) (city : List Nat)
    (r0 : weather_request_t)
    (hk : known_kind k = true) (hn : 1 ≤ n) (hne : city ≠ [])
    (hsp : city.head? ≠ some 32) (h9 : 9 ∉ city) (h0 : 0 ∉ city) (hlen : city.length ≤ 63)
    (hd : r0.city.length = 64) :
    parse_weather_request (some (k :: List.replicate n 32 ++ city)) (some r0)
      = (1, some ⟨k, city ++ List.replicate (64 - city.length) 0⟩, []) ∧
    cstr (city ++ List.replicate (64 - city.length) 0) = city ∧
    (city ++ List.replicate (64 - city.length) 0).length = 64 := by
  have hk' : k = 116 ∨ k = 104 ∨ k = 119 ∨ k = 112 := by
    simpa [known_kind, or_assoc] using hk
  refine ⟨parse_weather_request_accepts k n city r0 (by omega) (by omega) (by omega) hn hne
    hsp h9 h0 hlen hd, ?_, by simp; omega⟩
  have hz : ∀ x ∈ city, decide (x ≠ 0) = true := by
    intro x hx
    have : x ≠ 0 := fun hx0 => h0 (hx0 ▸ hx)
    simpa using this
  cases hr : 64 - city.length with
  | zero => omega
  | succ m =>
    rw [cstr, List.replicate_succ, List.takeWhile_append_of_pos hz]
    simp

/-- Witness of C4: the input "t roma". -/
theorem parse_weather_request_accepts_valid_witness :
    (known_kind 116 = true ∧ 1 ≤ 1 ∧ ([114, 111, 109, 97] : List Nat) ≠ [] ∧
      ([114, 111, 109, 97] : List Nat).head? ≠ some 32 ∧ 9 ∉ ([114, 111, 109, 97] : List Nat) ∧
      0 ∉ ([114, 111, 109, 97] : List Nat) ∧ ([114, 111, 109, 97] : List Nat).length ≤ 63 ∧
      (List.replicate 64 255 : List Nat).length = 64) ∧
    (parse_weather_request (some (116 :: List.replicate 1 32 ++ [114, 111, 109, 97]))
        (some ⟨0, List.replicate 64 255⟩)
      = (1, some ⟨116, [114, 111, 109, 97] ++ List.replicate (64 - 4) 0⟩, []) ∧
    cstr ([114, 111, 109, 97] ++ List.replicate (64 - 4) 0) = [114, 111, 109, 97] ∧
    ([114, 111, 109, 97] ++ List.replicate (64 - 4) 0 : List Nat).length = 64) :=
  ⟨by decide, parse_weather_request_accepts_valid 116 1 [114, 111, 109, 97]
    ⟨0, List.replicate 64 255⟩ (by decide) (by decide) (by decide) (by decide) (by decide)
    (by decide) (by decide) (by decide)⟩

/-- Counterexample to C5: the first token of "x roma" is the single character `x`,
which is none of `t`, `h`, `w`, `p`, and `parse_weather_request` returns 1 with a
request of kind `x`. -/
theorem parse_weather_request_unknown_kind_accepted :
    first_token [120, 32, 114, 111, 109, 97] = [120] ∧ known_kind 120 = false ∧
    parse_weather_request (some [120, 32, 114, 111, 109, 97])
        (some ⟨0, List.replicate 64 0⟩)
      = (1, some ⟨120, [114, 111, 109, 97] ++ List.replicate 60 0⟩, []) := by
  decide

/-- C5, amended. The syntactic stage does not check the kind: for every input made
of a single character `k` that is none of `t`, `h`, `w`, `p` (nor a null, a tab or
a space), one or more spaces and a valid city, `parse_weather_request` returns 1
and records the kind `k`; the request is rejected by the semantic stage, where
`validate_request_server` returns InvalidRequest. -/
theorem parse_weather_request_keeps_unknown_kind (k n : Nat) (city : List Nat)
    (r0 : weather_request_t)
    (hk : known_kind k = false) (hk0 : k ≠ 0) (hk9 : k ≠ 9) (hk32 : k ≠ 32)
    (hn : 1 ≤ n) (hne : city ≠ [])
    (hsp : city.head? ≠ some 32) (h9 : 9 ∉ city) (h0 : 0 ∉ city) (hlen : city.length ≤ 63)
    (hd : r0.city.length = 64) :
    parse_weather_request (some (k :: List.replicate n 32 ++ city)) (some r0)
      = (1, some ⟨k, city_field city⟩, []) ∧
    validate_request_server (some ⟨k, city_field city⟩) = STATUS_INVALID_REQUEST := by
  refine ⟨parse_weather_request_accepts k n city r0 hk0 hk9 hk32 hn hne hsp h9 h0 hlen hd, ?_⟩
  have hk' : k ≠ 116 ∧ k ≠ 104 ∧ k ≠ 119 ∧ k ≠ 112 := by
    simpa [known_kind, not_or, and_assoc] using hk
  simp only [validate_request_server, TYPE_TEMPERATURE, TYPE_HUMIDITY, TYPE_WIND,
    TYPE_PRESSURE]
  rw [if_pos hk']

/-- Witness of the amended C5: the input "x roma". -/
theorem parse_weather_request_keeps_unknown_kind_witness :
    (known_kind 120 = false ∧ (120 : Nat) ≠ 0 ∧ (120 : Nat) ≠ 9 ∧ (120 : Nat) ≠ 32 ∧ 1 ≤ 1 ∧
      ([114, 111, 109, 97] : List Nat) ≠ [] ∧
      ([114, 111, 109, 97] : List Nat).head? ≠ some 32 ∧ 9 ∉ ([114, 111, 109, 97] : List Nat) ∧
      0 ∉ ([114, 111, 109, 97] : List Nat) ∧ ([114, 111, 109, 97] : List Nat).length ≤ 63 ∧
      (List.replicate 64 255 : List Nat).length = 64) ∧
    (parse_weather_request (some (120 :: List.replicate 1 32 ++ [114, 111, 109, 97]))
        (some ⟨0, List.replicate 64 255⟩)
      = (1, some ⟨120, city_field [114, 111, 109, 97]⟩, []) ∧
    validate_request_server (some ⟨120, city_field [114, 111, 109, 97]⟩)
      = STATUS_INVALID_REQUEST) :=
  ⟨by decide, parse_weather_request_keeps_unknown_kind 120 1 [114, 111, 109, 97]
    ⟨0, List.replicate 64 255⟩ (by decide) (by decide) (by decide) (by decide) (by decide)
    (by decide) (by decide) (by decide) (by decide) (by decide) (by decide)⟩


/-- Counterexample to C6: on the input "t " the function returns 0 and reports no
reason at all. -/
theorem parse_weather_request_type_and_space_silent :
    parse_weather_request (some [116, 32]) (some ⟨0, List.replicate 64 0⟩)
      = (0, some ⟨0, List.replicate 64 0⟩, []) ∧
    (parse_weather_request (some [116, 32]) (some ⟨0, List.replicate 64 0⟩)).2.2
      ≠ [MSG_MISSING_CITY] := by
  decide

/-- C6, amended. For every input made of one type character followed by two or
more spaces and nothing else, `parse_weather_request` returns 0 and reports
"missing city"; on one type character followed by a single space, an input
shorter than 3 characters, it returns 0 and reports nothing. -/
theorem parse_weather_request_missing_city (k m : Nat) (r0 : weather_request_t)
    (hk0 : k ≠ 0) (hk9 : k ≠ 9) (hk32 : k ≠ 32) (hd : r0.city.length = 64) :
    parse_weather_request (some (k :: List.replicate (m + 2) 32)) (some r0)
      = (0, some { r0 with type := k }, [MSG_MISSING_CITY]) ∧
    parse_weather_request (some [k, 32]) (some r0) = (0, some r0, []) := by
  constructor
  · have hz : 0 ∉ k :: List.replicate (m + 2) 32 := by
      simp only [List.mem_cons, List.mem_replicate, not_or]
      exact ⟨fun h => hk0 h.symm, fun h => by simp at h⟩
    have hc := cstr_eq_self _ hz
    have htext : city_text (k :: List.replicate (m + 2) 32) = [] := by
      rw [city_text, hc]
      simp
    have htok : first_token (k :: List.replicate (m + 2) 32) = [k] := by
      rw [first_token, hc]
      simp [List.replicate_succ, List.takeWhile, hk32]
    rw [parse_weather_request_eq _ r0 hd, htext, htok, hc]
    have h3 : ¬ (k :: List.replicate (m + 2) 32).length < 3 := by
      simp
    have h9 : 9 ∉ k :: List.replicate (m + 2) 32 := by
      simp only [List.mem_cons, List.mem_replicate, not_or]
      exact ⟨fun h => hk9 h.symm, fun h => by simp at h⟩
    have h32 : 32 ∈ k :: List.replicate (m + 2) 32 := by
      simp [List.replicate_succ]
    rw [if_neg h3, if_neg h9, if_neg (not_not.mpr h32), if_neg (by simp), if_pos rfl]
    simp [deref]
  · have hc : cstr [k, 32] = [k, 32] := by
      apply cstr_eq_self
      simp only [List.mem_cons, List.mem_singleton, not_or]
      exact ⟨fun h => hk0 h.symm, by decide, by simp⟩
    rw [parse_weather_request_eq _ r0 hd, hc, if_pos (by simp)]

/-- Witness of the amended C6: the inputs "t" + two spaces and "t" + one space. -/
theorem parse_weather_request_missing_city_witness :
    ((116 : Nat) ≠ 0 ∧ (116 : Nat) ≠ 9 ∧ (116 : Nat) ≠ 32 ∧
      (List.replicate 64 255 : List Nat).length = 64) ∧
    (parse_weather_request (some (116 :: List.replicate (0 + 2) 32))
        (some ⟨0, List.replicate 64 255⟩)
      = (0, some { (⟨0, List.replicate 64 255⟩ : weather_request_t) with type := 116 },
          [MSG_MISSING_CITY]) ∧
    parse_weather_request (some [116, 32]) (some ⟨0, List.replicate 64 255⟩)
      = (0, some ⟨0, List.replicate 64 255⟩, [])) :=
  ⟨by decide, parse_weather_request_missing_city 116 0 ⟨0, List.replicate 64 255⟩
    (by decide) (by decide) (by decide) (by decide)⟩

/-- C7. First-violation rejection: for every input of at least 3 characters,
`parse_weather_request` returns 0 and reports exactly one reason, that of the
first rule violated: a tab in the input; else no space in the input ("troma");
else a first token (the text before the first space) that is not exactly one
character ("te roma"); else an empty text after the spaces that follow the type;
else such a text of 64 characters or more (a city of 64 `a`).  The five reasons
are distinct messages. -/
theorem parse_weather_request_first_violation (input : List Nat) (r0 : weather_request_t)
    (hd : r0.city.length = 64) (h3 : 3 ≤ (cstr input).length) :
    (9 ∈ cstr input →
      parse_weather_request (some input) (some r0) = (0, some r0, [MSG_TAB])) ∧
    (9 ∉ cstr input → 32 ∉ cstr input →
      parse_weather_request (some input) (some r0)
        = (0, some { r0 with type := deref input }, [MSG_FORMAT])) ∧
    (9 ∉ cstr input → 32 ∈ cstr input → (first_token input).length ≠ 1 →
      parse_weather_request (some input) (some r0)
        = (0, some { r0 with type := deref input }, [MSG_SINGLE_CHAR])) ∧
    (9 ∉ cstr input → 32 ∈ cstr input → (first_token input).length = 1 →
      city_text input = [] →
      parse_weather_request (some input) (some r0)
        = (0, some { r0 with type := deref input }, [MSG_MISSING_CITY])) ∧
    (9 ∉ cstr input → 32 ∈ cstr input → (first_token input).length = 1 →
      city_text input ≠ [] → 64 ≤ (city_text input).length →
      parse_weather_request (some input) (some r0)
        = (0, some { r0 with type := deref input }, [MSG_CITY_TOO_LONG])) ∧
    [MSG_TAB, MSG_FORMAT, MSG_SINGLE_CHAR, MSG_MISSING_CITY, MSG_CITY_TOO_LONG].Nodup ∧
    (parse_weather_request (some [116, 114, 111, 109, 97]) (some ⟨0, List.replicate 64 0⟩)).2.2
      = [MSG_FORMAT] ∧
    (parse_weather_request (some [116, 101, 32, 114, 111, 109, 97])
        (some ⟨0, List.replicate 64 0⟩)).2.2 = [MSG_SINGLE_CHAR] ∧
    (parse_weather_request (some (116 :: 32 :: List.replicate 64 97))
        (some ⟨0, List.replicate 64 0⟩)).2.2 = [MSG_CITY_TOO_LONG] ∧
    (parse_weather_request (some [116, 32, 114, 111, 9, 109, 97])
        (some ⟨0, List.replicate 64 0⟩)).2.2 = [MSG_TAB] := by
  have h3' : ¬ (cstr input).length < 3 := by omega
  have e := parse_weather_request_eq input r0 hd
  rw [if_neg h3'] at e
  refine ⟨?_, ?_, ?_, ?_, ?_, by decide, by decide, by decide, by decide, by decide⟩
  · intro h9
    rw [e, if_pos h9]
  · intro h9 h32
    rw [e, if_neg h9, if_pos h32]
  · intro h9 h32 h1
    rw [e, if_neg h9, if_neg (not_not.mpr h32), if_pos h1]
  · intro h9 h32 h1 he
    rw [e, if_neg h9, if_neg (not_not.mpr h32), if_neg (not_not.mpr h1), if_pos he]
  · intro h9 h32 h1 he hl
    rw [e, if_neg h9, if_neg (not_not.mpr h32), if_neg (not_not.mpr h1), if_neg he, if_pos hl]

/-- Witness of C7: the input "te roma" violates the single-character rule first. -/
theorem parse_weather_request_first_violation_witness :
    ((List.replicate 64 255 : List Nat).length = 64 ∧
      3 ≤ (cstr [116, 101, 32, 114, 111, 109, 97]).length ∧
      9 ∉ cstr [116, 101, 32, 114, 111, 109, 97] ∧
      32 ∈ cstr [116, 101, 32, 114, 111, 109, 97] ∧
      (first_token [116, 101, 32, 114, 111, 109, 97]).length ≠ 1) ∧
    parse_weather_request (some [116, 101, 32, 114, 111, 109, 97])
        (some ⟨0, List.replicate 64 255⟩)
      = (0, some { (⟨0, List.replicate 64 255⟩ : weather_request_t) with
            type := deref [116, 101, 32, 114, 111, 109, 97] }, [MSG_SINGLE_CHAR]) :=
  ⟨by decide,
    (parse_weather_request_first_violation [116, 101, 32, 114, 111, 109, 97]
      ⟨0, List.replicate 64 255⟩ (by decide) (by decide)).2.2.1
      (by decide) (by decide) (by decide)⟩

/-- C9. Request frame layout: for every input that `parse_weather_request`
accepts, whatever the request held before, `serialize_request` applied to the
parsed request returns 65 and writes exactly the first 65 bytes of the buffer:
the kind character, then the characters of the city followed by zero bytes up
to the 64th; the city has at most 63 characters, none of them null. -/
theorem serialize_parsed_request_frame_layout (input : List Nat)
    (r0 r : weather_request_t) (err : List String) (buffer : List Nat)
    (hbytes : ∀ c ∈ input, c < 256) (hd : r0.city.length = 64) (hb : 65 ≤ buffer.length)
    (hparse : parse_weather_request (some input) (some r0) = (1, some r, err)) :
    ∃ out,
      serialize_request (some r) (some buffer) = (65, some out) ∧
      out.take 65 =
        deref input :: (city_text input ++ List.replicate (64 - (city_text input).length) 0) ∧
      out.drop 65 = buffer.drop 65 ∧
      out.length = buffer.length ∧
      (city_text input).length ≤ 63 ∧
      0 ∉ city_text input := by
  rw [parse_weather_request_eq input r0 hd] at hparse
  have hcases : (city_text input).length < 64 ∧
      r = ⟨deref input, city_field (city_text input)⟩ := by
    split_ifs at hparse with c1 c2 c3 c4 c5 c6
    all_goals first
      | (exfalso; simp at hparse; done)
      | (simp only [Prod.mk.injEq, Option.some.injEq, true_and] at hparse
         exact ⟨by omega, hparse.1.symm⟩)
  obtain ⟨hlen, rfl⟩ := hcases
  have hk : deref input < 256 := by
    cases input with
    | nil => simp [deref]
    | cons c rest => exact hbytes c (List.mem_cons_self _ _)
  have hfield : (city_field (city_text input)).length = 64 := by
    simp [city_field]; omega
  have h0 : 0 ∉ city_text input := by
    intro hm
    have h1 := List.mem_of_mem_drop (List.dropWhile_sublist _ |>.subset hm)
    have h2 := List.mem_takeWhile_imp h1
    simp at h2
  refine ⟨_, serialize_request_eq _ buffer hk hfield hb, ?_, ?_, ?_, by omega, h0⟩
  · rw [List.take_append_of_le_length (by simp [hfield]),
      List.take_of_length_le (by simp [hfield])]
    rfl
  · rw [List.drop_append_of_le_length (by simp [hfield]),
      List.drop_of_length_le (by simp [hfield])]
    simp
  · simp [hfield]
    omega

/-- Witness of C9: the input "t roma" parsed into a request whose city field was
filled with other bytes. -/
theorem serialize_parsed_request_frame_layout_witness :
    ((∀ c ∈ ([116, 32, 114, 111, 109, 97] : List Nat), c < 256) ∧
      (List.replicate 64 255 : List Nat).length = 64 ∧
      65 ≤ (List.replicate 65 170 : List Nat).length ∧
      parse_weather_request (some [116, 32, 114, 111, 109, 97])
          (some ⟨0, List.replicate 64 255⟩)
        = (1, some ⟨116, city_field [114, 111, 109, 97]⟩, [])) ∧
    ∃ out,
      serialize_request (some ⟨116, city_field [114, 111, 109, 97]⟩)
          (some (List.replicate 65 170)) = (65, some out) ∧
      out.take 65 =
        deref [116, 32, 114, 111, 109, 97] ::
          (city_text [116, 32, 114, 111, 109, 97] ++
            List.replicate (64 - (city_text [116, 32, 114, 111, 109, 97]).length) 0) ∧
      out.drop 65 = (List.replicate 65 170).drop 65 ∧
      out.length = (List.replicate 65 170).length ∧
      (city_text [116, 32, 114, 111, 109, 97]).length ≤ 63 ∧
      0 ∉ city_text [116, 32, 114, 111, 109, 97] :=
  ⟨by decide, serialize_parsed_request_frame_layout [116, 32, 114, 111, 109, 97]
    ⟨0, List.replicate 64 255⟩ ⟨116, city_field [114, 111, 109, 97]⟩ []
    (List.replicate 65 170) (by decide) (by decide) (by decide) (by decide)⟩

/-! ## Reply handling -/

/-- C10 on the code: a 5-byte reply (status 0, kind `t`) from the address the
request was sent to is not rejected.  `deserialize_response` runs on the 9-byte
buffer, whose last four bytes are what the buffer held before the call (here
the bits 0x41200000 of the float 10.0), and the client prints a temperature and
exits with code 0. -/
theorem client_receive_short_reply_is_decoded :
    client_receive .little ⟨116, city_field [114, 111, 109, 97]⟩ ⟨56700, 2130706433⟩
        [170, 170, 170, 170, 170, 65, 32, 0, 0] ⟨0, 0, 0⟩
        (some ([0, 0, 0, 0, 116], ⟨56700, 2130706433⟩))
      = ⟨0, [], some ⟨0, 116, 1092616192⟩,
          [Printed.result_header [82, 111, 109, 97], Printed.temperature 1092616192,
            Printed.client_terminated]⟩ := by
  decide

/-- Counterexample to C11: a 9-byte reply (status 0, kind `t`, value 10.0) whose
source has the IP address the request was sent to and another port (40000
instead of 56700) is decoded and displayed; and an empty datagram from another
IP address is reported as a failed receive, not as an unknown source. -/
theorem client_receive_other_port_is_decoded :
    client_receive .little ⟨116, city_field [114, 111, 109, 97]⟩ ⟨56700, 2130706433⟩
        (List.replicate 9 170) ⟨0, 0, 0⟩
        (some ([0, 0, 0, 0, 116, 65, 32, 0, 0], ⟨40000, 2130706433⟩))
      = ⟨0, [], some ⟨0, 116, 1092616192⟩,
          [Printed.result_header [82, 111, 109, 97], Printed.temperature 1092616192,
            Printed.client_terminated]⟩ ∧
    client_receive .little ⟨116, city_field [114, 111, 109, 97]⟩ ⟨56700, 2130706433⟩
        (List.replicate 9 170) ⟨0, 0, 0⟩ (some ([], ⟨56700, 167772161⟩))
      = ⟨1, [MSG_RECVFROM], none, []⟩ := by
  decide

/-- C11, amended. The provenance check compares IP addresses.  The requester
decodes and displays a reply only if the IP address of the reply's source
equals the IP address the request was sent to; every non-empty reply from
another IP address is rejected with the "unknown source" error before decoding,
whatever its payload. -/
theorem client_receive_provenance (host : ByteOrder) (request : weather_request_t)
    (server_addr from_addr : sockaddr_in) (recv_buffer datagram : List Nat)
    (response : weather_response_t) :
    (((client_receive host request server_addr recv_buffer response
            (some (datagram, from_addr))).decoded ≠ none ∨
        (client_receive host request server_addr recv_buffer response
            (some (datagram, from_addr))).stdout ≠ []) →
      from_addr.sin_addr = server_addr.sin_addr) ∧
    (from_addr.sin_addr ≠ server_addr.sin_addr → datagram ≠ [] →
      client_receive host request server_addr recv_buffer response
          (some (datagram, from_addr))
        = ⟨1, [MSG_UNKNOWN_SOURCE], none, []⟩) := by
  have hother : from_addr.sin_addr ≠ server_addr.sin_addr →
      client_receive host request server_addr recv_buffer response
          (some (datagram, from_addr))
        = (if (recvfrom recv_buffer RESPONSE_SIZE datagram).1 ≤ 0 then
            ⟨1, [MSG_RECVFROM], none, []⟩
          else ⟨1, [MSG_UNKNOWN_SOURCE], none, []⟩) := by
    intro h
    simp only [client_receive]
    by_cases hle : (recvfrom recv_buffer RESPONSE_SIZE datagram).1 ≤ 0
    · rw [if_pos hle, if_pos hle]
    · rw [if_neg hle, if_neg hle, if_pos h]
  constructor
  · intro hshown
    by_contra h
    rw [hother h] at hshown
    by_cases hle : (recvfrom recv_buffer RESPONSE_SIZE datagram).1 ≤ 0
    · rw [if_pos hle] at hshown
      simp at hshown
    · rw [if_neg hle] at hshown
      simp at hshown
  · intro h hd
    rw [hother h, if_neg (recvfrom_pos recv_buffer RESPONSE_SIZE datagram hd (by decide))]

/-- Witness of the amended C11: a reply that is decoded comes from the server's IP
address (here from another port), and a 9-byte reply from another IP address,
whose payload `deserialize_response` would decode, is rejected as an unknown
source. -/
theorem client_receive_provenance_witness :
    (((client_receive .little ⟨116, city_field [114, 111, 109, 97]⟩ ⟨56700, 2130706433⟩
            (List.replicate 9 170) ⟨0, 0, 0⟩
            (some ([0, 0, 0, 0, 116, 65, 32, 0, 0], ⟨40000, 2130706433⟩))).decoded ≠ none ∨
        (client_receive .little ⟨116, city_field [114, 111, 109, 97]⟩ ⟨56700, 2130706433⟩
            (List.replicate 9 170) ⟨0, 0, 0⟩
            (some ([0, 0, 0, 0, 116, 65, 32, 0, 0], ⟨40000, 2130706433⟩))).stdout ≠ []) ∧
      (⟨40000, 2130706433⟩ : sockaddr_in).sin_addr
        = (⟨56700, 2130706433⟩ : sockaddr_in).sin_addr) ∧
    ((⟨56700, 167772161⟩ : sockaddr_in).sin_addr
        ≠ (⟨56700, 2130706433⟩ : sockaddr_in).sin_addr ∧
      ([0, 0, 0, 0, 116, 65, 32, 0, 0] : List Nat) ≠ [] ∧
      deserialize_response .little (some [0, 0, 0, 0, 116, 65, 32, 0, 0]) (some ⟨0, 0, 0⟩)
        = (0, some ⟨0, 116, 1092616192⟩) ∧
      client_receive .little ⟨116, city_field [114, 111, 109, 97]⟩ ⟨56700, 2130706433⟩
          (List.replicate 9 170) ⟨0, 0, 0⟩
          (some ([0, 0, 0, 0, 116, 65, 32, 0, 0], ⟨56700, 167772161⟩))
        = ⟨1, [MSG_UNKNOWN_SOURCE], none, []⟩) :=
  ⟨⟨by decide,
      (client_receive_provenance .little ⟨116, city_field [114, 111, 109, 97]⟩
        ⟨56700, 2130706433⟩ ⟨40000, 2130706433⟩ (List.replicate 9 170)
        [0, 0, 0, 0, 116, 65, 32, 0, 0] ⟨0, 0, 0⟩).1 (by decide)⟩,
    by decide, by decide, by decide,
    (client_receive_provenance .little ⟨116, city_field [114, 111, 109, 97]⟩
      ⟨56700, 2130706433⟩ ⟨56700, 167772161⟩ (List.replicate 9 170)
      [0, 0, 0, 0, 116, 65, 32, 0, 0] ⟨0, 0, 0⟩).2 (by decide) (by decide)⟩

/-! ## Measurement generator -/

/-- C12. Generator bounds: for every sample `r` of the random source with
`0 ≤ r ≤ RAND_MAX`, the value `min + (r / RAND_MAX) * (max - min)` computed in
floating point lies in the closed interval of its kind: `get_temperature` in
[-10, 40], `get_humidity` in [20, 100], `get_wind` in [0, 100] and
`get_pressure` in [950, 1050].  The rounding of each conversion and operation
is any monotone function that is exact on the integers up to 2^24. -/
theorem generator_bounds (fm : FloatModel) (sample : Nat)
    (hmono : Monotone fm.rnd)
    (hexact : ∀ n : ℤ, |n| ≤ 16777216 → fm.rnd (n : ℚ) = (n : ℚ))
    (hmax : 1 ≤ fm.RAND_MAX) (hsample : sample ≤ fm.RAND_MAX) :
    (-10 ≤ get_temperature fm sample ∧ get_temperature fm sample ≤ 40) ∧
    (20 ≤ get_humidity fm sample ∧ get_humidity fm sample ≤ 100) ∧
    (0 ≤ get_wind fm sample ∧ get_wind fm sample ≤ 100) ∧
    (950 ≤ get_pressure fm sample ∧ get_pressure fm sample ≤ 1050) := by
  have ht := generate_random_float_bounds fm sample (-10) 40 hmono hexact hmax hsample
    (by norm_num) (by norm_num) (by norm_num) (by norm_num)
  have hh := generate_random_float_bounds fm sample 20 100 hmono hexact hmax hsample
    (by norm_num) (by norm_num) (by norm_num) (by norm_num)
  have hw := generate_random_float_bounds fm sample 0 100 hmono hexact hmax hsample
    (by norm_num) (by norm_num) (by norm_num) (by norm_num)
  have hp := generate_random_float_bounds fm sample 950 1050 hmono hexact hmax hsample
    (by norm_num) (by norm_num) (by norm_num) (by norm_num)
  simp only [Int.cast_neg, Int.cast_ofNat, Int.cast_zero] at ht hh hw hp
  exact ⟨ht, hh, hw, hp⟩

/-- Witness of C12: the environment that rounds down to the multiples of 1/8 and
the sample 12345. -/
theorem generator_bounds_witness :
    (Monotone eighths_model.rnd ∧
      (∀ n : ℤ, |n| ≤ 16777216 → eighths_model.rnd (n : ℚ) = (n : ℚ)) ∧
      1 ≤ eighths_model.RAND_MAX ∧ 12345 ≤ eighths_model.RAND_MAX) ∧
    ((-10 ≤ get_temperature eighths_model 12345 ∧ get_temperature eighths_model 12345 ≤ 40) ∧
      (20 ≤ get_humidity eighths_model 12345 ∧ get_humidity eighths_model 12345 ≤ 100) ∧
      (0 ≤ get_wind eighths_model 12345 ∧ get_wind eighths_model 12345 ≤ 100) ∧
      (950 ≤ get_pressure eighths_model 12345 ∧ get_pressure eighths_model 12345 ≤ 1050)) :=
  ⟨⟨eighths_model_monotone, fun n _ => eighths_model_exact n, by decide, by decide⟩,
    generator_bounds eighths_model 12345 eighths_model_monotone
      (fun n _ => eighths_model_exact n) (by decide) (by decide)⟩

/-! ## End to end -/

/-- C13. End-to-end success: for every kind `k` among `t`, `h`, `w`, `p`, every
supported city name written in any letter casing and every number `n ≥ 1` of
separating spaces, the input `k`, `n` spaces, city is accepted by
`parse_weather_request`; `deserialize_request` of the 65 bytes that
`serialize_request` writes for the parsed request gives a request on which
`validate_request_server` returns Success; and the responder, on that datagram,
sends one 9-byte reply whose status is Success and whose kind is `k`. -/
theorem end_to_end_success (client_host server_host : ByteOrder) (fm : FloatModel)
    (sample k n : Nat) (city name : List Nat) (r0 req0 : weather_request_t)
    (client_buffer recv_buffer server_buffer : List Nat) (client_addr : sockaddr_in)
    (hk : known_kind k = true) (hname : name ∈ supported_cities)
    (hcase : equal_ignoring_case city name = true) (hn : 1 ≤ n)
    (hr0 : r0.city.length = 64) (hreq0 : req0.city.length = 64)
    (hcb : 65 ≤ client_buffer.length) (hsb : 9 ≤ server_buffer.length)
    (hbits : ∀ q, fm.bits q < 4294967296) :
    ∃ parsed out decoded value,
      parse_weather_request (some (k :: List.replicate n 32 ++ city)) (some r0)
        = (1, some parsed, []) ∧
      serialize_request (some parsed) (some client_buffer) = (65, some out) ∧
      deserialize_request (some (out.take 65)) (some req0) = (0, some decoded) ∧
      validate_request_server (some decoded) = STATUS_SUCCESS ∧
      server_step server_host fm sample recv_buffer req0 server_buffer
          (some (out.take 65, client_addr))
        = ⟨[], some ([0, 0, 0, 0, k, value / 16777216 % 256, value / 65536 % 256,
            value / 256 % 256, value % 256], client_addr)⟩ ∧
      deserialize_response client_host
          (some [0, 0, 0, 0, k, value / 16777216 % 256, value / 65536 % 256,
            value / 256 % 256, value % 256]) (some ⟨0, 0, 0⟩)
        = (0, some ⟨STATUS_SUCCESS, k, value⟩) := by
  obtain ⟨hletters, hn1, hn2⟩ := supported_cities_letters name hname
  obtain ⟨hcity, hlen⟩ := equal_ignoring_case_letters city name hcase hletters
  have hk' : k = 116 ∨ k = 104 ∨ k = 119 ∨ k = 112 := by
    simpa [known_kind, or_assoc] using hk
  have hk256 : k < 256 := by omega
  have h0 : 0 ∉ city := fun hm => (is_letter_facts 0 (hcity 0 hm)).1 rfl
  have h9 : 9 ∉ city := fun hm => (is_letter_facts 9 (hcity 9 hm)).2.1 rfl
  have hne : city ≠ [] := by
    intro h
    rw [h] at hlen
    simp at hlen
    omega
  have hsp : city.head? ≠ some 32 := by
    intro h
    have hm : 32 ∈ city := List.mem_of_mem_head? h
    exact (is_letter_facts 32 (hcity 32 hm)).2.2.1 rfl
  have hfield : (city_field city).length = 64 := by
    simp [city_field]; omega
  have hparse := parse_weather_request_accepts k n city r0 (by omega) (by omega) (by omega)
    hn hne hsp h9 h0 (by omega) hr0
  have hser := serialize_request_eq ⟨k, city_field city⟩ client_buffer hk256 hfield hcb
  have htake : List.take 65 (k :: city_field city ++ List.drop 65 client_buffer)
      = k :: city_field city ++ [] := by
    rw [List.take_append_of_le_length (by simp [hfield]),
      List.take_of_length_le (by simp [hfield])]
    simp
  have hdes := deserialize_request_eq k (city_field city) [] req0 hk256 hfield hreq0
  rw [city_field_set city (by omega)] at hdes
  have hval := validate_request_server_success k city name hk hname hcase
  have hdlen : 65 ≤ (k :: city_field city ++ ([] : List Nat)).length := by
    simp [hfield]
  have hdec : decoded_request (k :: city_field city ++ []) = ⟨k, city_field city⟩ := by
    have h1 := deserialize_request_frame (k :: city_field city ++ []) req0 hdlen hreq0
    rw [hdes] at h1
    simp only [Prod.mk.injEq, Option.some.injEq, true_and] at h1
    exact h1.symm
  obtain ⟨value, hbuild⟩ := build_response_success fm sample ⟨k, city_field city⟩
  have hvalue : value < 4294967296 := by
    have hb := (build_response_bounds fm sample STATUS_SUCCESS ⟨k, city_field city⟩ hbits
      hk256).2.2
    rw [hbuild] at hb
    exact hb
  refine ⟨⟨k, city_field city⟩, _, ⟨k, city_field city⟩, value, hparse, hser, ?_, hval, ?_, ?_⟩
  · rw [htake]
    exact hdes
  · rw [htake, server_step_full server_host fm sample recv_buffer server_buffer _ req0
      client_addr hdlen hsb hreq0 hbits, hdec, hval, hbuild]
    simp [response_frame, be_bytes, STATUS_SUCCESS]
  · have h := deserialize_response_eq client_host ⟨STATUS_SUCCESS, k, value⟩ ⟨0, 0, 0⟩ []
      (by simp [STATUS_SUCCESS]) hk256 hvalue
    simpa [be_bytes, STATUS_SUCCESS] using h

/-- Witness of C13: the input "p milano" for the supported name "Milano". -/
theorem end_to_end_success_witness :
    (known_kind 112 = true ∧ [77, 105, 108, 97, 110, 111] ∈ supported_cities ∧
      equal_ignoring_case [109, 105, 108, 97, 110, 111] [77, 105, 108, 97, 110, 111] = true ∧
      1 ≤ 1 ∧ (List.replicate 64 0 : List Nat).length = 64 ∧
      (List.replicate 64 170 : List Nat).length = 64 ∧
      65 ≤ (List.replicate 65 170 : List Nat).length ∧
      9 ≤ (List.replicate 9 170 : List Nat).length ∧
      ∀ q, eighths_model.bits q < 4294967296) ∧
    ∃ parsed out decoded value,
      parse_weather_request
          (some (112 :: List.replicate 1 32 ++ [109, 105, 108, 97, 110, 111]))
          (some ⟨0, List.replicate 64 0⟩)
        = (1, some parsed, []) ∧
      serialize_request (some parsed) (some (List.replicate 65 170)) = (65, some out) ∧
      deserialize_request (some (out.take 65)) (some ⟨0, List.replicate 64 170⟩)
        = (0, some decoded) ∧
      validate_request_server (some decoded) = STATUS_SUCCESS ∧
      server_step .big eighths_model 12345 (List.replicate 65 170)
          ⟨0, List.replicate 64 170⟩ (List.replicate 9 170)
          (some (out.take 65, ⟨40000, 2130706433⟩))
        = ⟨[], some ([0, 0, 0, 0, 112, value / 16777216 % 256, value / 65536 % 256,
            value / 256 % 256, value % 256], ⟨40000, 2130706433⟩)⟩ ∧
      deserialize_response .little
          (some [0, 0, 0, 0, 112, value / 16777216 % 256, value / 65536 % 256,
            value / 256 % 256, value % 256]) (some ⟨0, 0, 0⟩)
        = (0, some ⟨STATUS_SUCCESS, 112, value⟩) :=
  ⟨⟨by decide, by decide, by decide, by decide, by decide, by decide, by decide, by decide,
      eighths_model_bits⟩,
    end_to_end_success .little .big eighths_model 12345 112 1 [109, 105, 108, 97, 110, 111]
      [77, 105, 108, 97, 110, 111] ⟨0, List.replicate 64 0⟩ ⟨0, List.replicate 64 170⟩
      (List.replicate 65 170) (List.replicate 65 170) (List.replicate 9 170)
      ⟨40000, 2130706433⟩ (by decide) (by decide) (by decide) (by decide) (by decide)
      (by decide) (by decide) (by decide) eighths_model_bits⟩

/-! ## Responder loop -/

/-- C14 on the code: a 66-byte datagram (kind `t`, the city "Bari" in its 64-byte
field, one byte more) is not discarded.  `recvfrom` stores its first 65 bytes
in the 65-byte buffer and returns 65, the size test passes, and the responder
sends a 9-byte reply with status Success and kind `t`. -/
theorem server_step_oversize_datagram_is_answered :
    server_step .little eighths_model 12345 (List.replicate 65 170)
        ⟨0, List.replicate 64 170⟩ (List.replicate 9 170)
        (some (116 :: city_field [66, 97, 114, 105] ++ [255], ⟨40000, 2130706433⟩))
      = ⟨[], some ([0, 0, 0, 0, 116, 0, 0, 0, 70], ⟨40000, 2130706433⟩)⟩ := by
  rw [server_step_full .little eighths_model 12345 _ _ _ _ _ (by decide) (by decide)
    (by decide) eighths_model_bits]
  have hv : validate_request_server
      (some (decoded_request (116 :: city_field [66, 97, 114, 105] ++ [255])))
      = STATUS_SUCCESS := by decide
  have hk : (decoded_request (116 :: city_field [66, 97, 114, 105] ++ [255])).type
      = TYPE_TEMPERATURE := by decide
  rw [hv]
  simp only [build_response, if_true, hk, response_frame, eighths_model_temperature]
  decide


end Weather
